import Mathlib

/-!
A shallow embedding of the Sentinel-1 SLC STAC generation code
(`src/stactools/sentinel1/slc/stac.py` together with
`src/stactools/sentinel1/slc/constants.py`) and proofs about it.

Data read from the product XML files by helper modules of the repository
that are not among the two source files (`SLCMetadataLinks`,
`SLCProductMetadata`, the property fillers, `extract_properties`,
`image_asset_from_href`, `get_shape`, the shared constants module) is
modelled as an explicit input record `Inputs`.  Third-party libraries
(pystac, shapely, stactools.core, os.path) are modelled by concrete Lean
data structures and functions.  Floating point coordinates are modelled by
rational numbers, and Python dictionaries by association lists with a
replace-in-place update, which preserves the insertion-order semantics of
Python dicts.
-/

namespace S1SLC

/-- Entry of the sar polarizations summary list: either a single
polarization or a nested pair, as in `SENTINEL_SLC_SAR["polarizations"]`. -/
inductive PolEntry
  | single (p : String)
  | dual (a b : String)
deriving DecidableEq

/-- Model of a pystac provider object. -/
structure Provider where
  name : String
  roles : List String
  url : String
deriving DecidableEq

/-- JSON-like values stored in STAC properties, summaries and asset fields. -/
inductive JVal
  | s (v : String)
  | i (v : Int)
  | q (v : ℚ)
  | sarr (v : List String)
  | narr (v : List Nat)
  | qarr (v : List ℚ)
  | polarr (v : List PolEntry)
  | providers (v : List Provider)
  | cen (lat lon : ℚ)
deriving DecidableEq

/-- Model of the pystac media types the source mentions. -/
inductive MediaType
  | GEOTIFF
  | COG
  | XML
  | PNG
deriving DecidableEq

/-- Modelled from the spec: the archive format enum (`..formats.Format`, a
repository module not under src/).  The spec names exactly the two archive
variants, the SAFE directory structure and the Cloud-Optimized GeoTIFF. -/
inductive ArchiveFormat
  | SAFE
  | COG
deriving DecidableEq

/-- Model of a pystac Link (only the fields the source sets). -/
structure Link where
  title : String
  rel : String
  target : String
deriving DecidableEq

/-- Model of a pystac Asset; `extra` holds extension fields set on the
asset (for instance by `fill_swath_sar_properties`). -/
structure Asset where
  href : String
  media_type : Option MediaType
  roles : List String
  title : Option String
  description : Option String
  extra : List (String × JVal)
deriving DecidableEq

/-- Model of a pystac item-assets AssetDefinition from `constants.py`. -/
structure AssetDefinition where
  title : String
  type : MediaType
  description : String
  roles : List String
deriving DecidableEq

/-- A polygon exterior ring; the item geometry as used by the source. -/
abbrev Geometry := List (ℚ × ℚ)

/-- Model of a pystac Item.  Extension fields (`proj:epsg`, `sar:...`)
live inside `properties`, as they do in a serialized pystac Item. -/
structure Item where
  id : String
  geometry : Geometry
  bbox : List ℚ
  datetime : String
  properties : List (String × JVal)
  stac_extensions : List String
  assets : List (String × Asset)
  links : List Link
deriving DecidableEq

instance : Inhabited Item :=
  ⟨{ id := "", geometry := [], bbox := [], datetime := "", properties := [],
     stac_extensions := [], assets := [], links := [] }⟩

/-- Model of a pystac Collection (the fields `create_collection` sets). -/
structure Collection where
  id : String
  description : String
  title : String
  href : String
  spatial_extent : List ℚ
  temporal_extent_start : String
  temporal_extent_end : Option String
  stac_extensions : List String
  keywords : List String
  providers : List Provider
  summaries : List (String × JVal)
  links : List Link
  item_assets : List (String × AssetDefinition)
deriving DecidableEq

/-! ### Python-dict operations on association lists -/

/-- Lookup in a Python-dict model: first binding of the key. -/
def getKey {α : Type} : List (String × α) → String → Option α
  | [], _ => none
  | p :: rest, k => if p.1 = k then some p.2 else getKey rest k

/-- Python `d[k] = v`: replace the binding in place, or append a new one. -/
def setKey {α : Type} : List (String × α) → String → α → List (String × α)
  | [], k, v => [(k, v)]
  | p :: rest, k, v => if p.1 = k then (k, v) :: rest else p :: setKey rest k v

/-- Python `d.update(l)`: assign every pair of `l` in order. -/
def updKVs {α : Type} (m : List (String × α)) (l : List (String × α)) : List (String × α) :=
  l.foldl (fun m kv => setKey m kv.1 kv.2) m

/-- Python `k in d`. -/
def hasKey {α : Type} (m : List (String × α)) (k : String) : Bool :=
  (getKey m k).isSome

/-- Python `dict(pairs)`. -/
def dictOfPairs {α : Type} (l : List (String × α)) : List (String × α) :=
  l.foldl (fun m kv => setKey m kv.1 kv.2) []

/-- Append a string to a list when it is not there yet (pystac
`add_if_missing=True` behaviour on `stac_extensions`). -/
def addIfMissing (l : List String) (s : String) : List String :=
  if s ∈ l then l else l ++ [s]

/-! ### Constants

Schema URIs returned by the pystac extension classes. -/

def sarSchemaUri : String := "https://stac-extensions.github.io/sar/v1.0.0/schema.json"

def satSchemaUri : String := "https://stac-extensions.github.io/sat/v1.0.0/schema.json"

def eoSchemaUri : String := "https://stac-extensions.github.io/eo/v1.0.0/schema.json"

def projSchemaUri : String := "https://stac-extensions.github.io/projection/v1.0.0/schema.json"

def itemAssetsSchemaUri : String := "https://stac-extensions.github.io/item-assets/v1.0.0/schema.json"

/-- Modelled from the spec: `SENTINEL_CONSTELLATION` from the shared
`..constants` module of the repository, which is not under src/. -/
def SENTINEL_CONSTELLATION : String := "sentinel-1"

/-- Modelled from the spec: `SENTINEL_PLATFORMS` from the shared
`..constants` module of the repository, which is not under src/. -/
def SENTINEL_PLATFORMS : List String := ["sentinel-1a", "sentinel-1b"]

/-- Modelled from the spec: `SENTINEL_PROVIDER` from the shared
`..constants` module of the repository, which is not under src/. -/
def SENTINEL_PROVIDER : Provider :=
  { name := "ESA"
    roles := ["producer", "processor", "licensor"]
    url := "https://earth.esa.int/web/guest/home" }

/-- `SENTINEL_SLC_DESCRIPTION` from `constants.py`. -/
def SENTINEL_SLC_DESCRIPTION : String :=
  "Level-1 Single Look Complex (SLC) products are images in the slant range by azimuth imaging plane, in the image plane of satellite data acquisition. Each image pixel is represented by a complex (I and Q) magnitude value and therefore contains both amplitude and phase information. Each I and Q value is 16 bits per pixel. The processing for all SLC products results in a single look in each dimension using the full available signal bandwidth. The imagery is geo-referenced using orbit and attitude data from the satellite. SLC images are produced in a zero Doppler geometry. This convention is common with the standard slant range products available from other SAR sensors."

/-- `SENTINEL_SLC_START` from `constants.py`, kept as its ISO string. -/
def SENTINEL_SLC_START : String := "2014-10-10T00:00:00Z"

/-- Spatial part of `SENTINEL_SLC_EXTENT` from `constants.py`. -/
def SENTINEL_SLC_SPATIAL_EXTENT : List ℚ := [-180, -90, 180, 90]

/-- `SENTINEL_SLC_TECHNICAL_GUIDE` from `constants.py`. -/
def SENTINEL_SLC_TECHNICAL_GUIDE : Link :=
  { title := "Sentinel-1 Single Look Complex (SLC) Technical Guide"
    rel := "about"
    target := "https://sentinels.copernicus.eu/web/sentinel/technical-guides/sentinel-1-sar/products-algorithms/level-1-algorithms/single-look-complex" }

/-- `SENTINEL_SLC_LICENSE` from `constants.py`. -/
def SENTINEL_SLC_LICENSE : Link :=
  { title := "Sentinel License"
    rel := "license"
    target := "https://scihub.copernicus.eu/twiki/do/view/SciHubWebPortal/TermsConditions" }

/-- `SENTINEL_SLC_KEYWORDS` from `constants.py`. -/
def SENTINEL_SLC_KEYWORDS : List String := ["ground", "sentinel", "copernicus", "esa", "sar"]

/-- `SENTINEL_SLC_SAT` from `constants.py` (named dict entries). -/
structure SatSummaries where
  orbit_state : JVal
deriving DecidableEq

def SENTINEL_SLC_SAT : SatSummaries :=
  { orbit_state := .sarr ["ascending", "descending"] }

/-- `SENTINEL_SLC_SAR` from `constants.py` (named dict entries). -/
structure SarSummaries where
  looks_range : JVal
  product_type : JVal
  looks_azimuth : JVal
  polarizations : JVal
  frequency_band : JVal
  instrument_mode : JVal
  center_frequency : JVal
  resolution_range : JVal
  resolution_azimuth : JVal
  pixel_spacing_range : JVal
  pixel_spacing_azimuth : JVal
  observation_direction : JVal
  looks_equivalent_number : JVal
deriving DecidableEq

def SENTINEL_SLC_SAR : SarSummaries :=
  { looks_range := .narr [1]
    product_type := .sarr ["SLC"]
    looks_azimuth := .narr [1]
    polarizations := .polarr
      [.single "HH", .single "VV", .single "HV", .single "VH",
       .dual "HH" "HV", .dual "VV" "VH"]
    frequency_band := .sarr ["C"]
    instrument_mode := .sarr ["IW", "EW", "SM", "WV"]
    center_frequency := .qarr [5.405]
    resolution_range := .qarr [1.7, 2.0, 2.5, 2.7, 3.1, 3.3, 3.6, 3.5, 7.9, 9.9, 11.6, 13.3, 14.4]
    resolution_azimuth := .qarr [3.9, 4.9, 22.5, 22.6, 22.7, 43.7, 44.3, 45.2, 45.6, 44.0]
    pixel_spacing_range := .qarr [1.5, 1.8, 2.2, 2.3, 2.6, 2.9, 3.1, 5.9]
    pixel_spacing_azimuth := .qarr [3.5, 3.6, 4.1, 4.2, 14.1, 19.9]
    observation_direction := .sarr ["right"]
    looks_equivalent_number := .narr [1] }

/-- Description shared by the calibration schema assets in `constants.py`. -/
def calibrationDescription : String :=
  "Calibration metadata including calibration information and the beta nought, sigma nought, gamma and digital number look-up tables that can be used for absolute product calibration."

/-- Description shared by the noise schema assets in `constants.py`. -/
def noiseDescription : String := "Estimated thermal noise look-up tables"

/-- Description shared by the product schema assets in `constants.py`. -/
def productSchemaDescription : String :=
  "Describes the main characteristics corresponding to the band: state of the platform during acquisition, image properties, Doppler information, geographic location, etc."

/-- Description of the manifest asset in `constants.py`. -/
def manifestDescription : String :=
  "General product metadata in XML format. Contains a high-level textual description of the product and references to all of product\x27s components, the product metadata, including the product identification and the resource references, and references to the physical location of each component file contained in the product."

/-- Description of the thumbnail asset, shared by `constants.py` and the
inline literal in `create_item`. -/
def thumbnailDescription : String :=
  "An averaged, decimated preview image in PNG format. Single polarization products are represented with a grey scale image. Dual polarization products are represented by a single composite colour image in RGB with the red channel (R) representing the  co-polarization VV or HH), the green channel (G) represents the cross-polarization (VH or HV) and the blue channel (B) represents the ratio of the cross an co-polarizations."

/-- `SENTINEL_SLC_ASSETS` from `constants.py`. -/
def SENTINEL_SLC_ASSETS : List (String × AssetDefinition) :=
  [("vh", { title := "VH Data", type := .COG,
            description := "VH polarization backscattering coefficient, 16-bit DN.",
            roles := ["data"] }),
   ("hh", { title := "HH Data", type := .COG,
            description := "HH polarization backscattering coefficient, 16-bit DN.",
            roles := ["data"] }),
   ("hv", { title := "HV Data", type := .COG,
            description := "HV polarization backscattering coefficient, 16-bit DN.",
            roles := ["data"] }),
   ("vv", { title := "VV Data", type := .COG,
            description := "VV polarization backscattering coefficient, 16-bit DN.",
            roles := ["data"] }),
   ("schema-calibration-hh", { title := "HH Calibration Schema", type := .XML,
                               description := calibrationDescription, roles := ["metadata"] }),
   ("schema-calibration-hv", { title := "HV Calibration Schema", type := .XML,
                               description := calibrationDescription, roles := ["metadata"] }),
   ("schema-calibration-vh", { title := "VH Calibration Schema", type := .XML,
                               description := calibrationDescription, roles := ["metadata"] }),
   ("schema-calibration-vv", { title := "VV Calibration Schema", type := .XML,
                               description := calibrationDescription, roles := ["metadata"] }),
   ("schema-noise-hh", { title := "HH Noise Schema", type := .XML,
                         description := noiseDescription, roles := ["metadata"] }),
   ("schema-noise-hv", { title := "HV Noise Schema", type := .XML,
                         description := noiseDescription, roles := ["metadata"] }),
   ("schema-noise-vh", { title := "VH Noise Schema", type := .XML,
                         description := noiseDescription, roles := ["metadata"] }),
   ("schema-noise-vv", { title := "VV Noise Schema", type := .XML,
                         description := noiseDescription, roles := ["metadata"] }),
   ("schema-product-hh", { title := "HH Product Schema", type := .XML,
                           description := productSchemaDescription, roles := ["metadata"] }),
   ("schema-product-hv", { title := "HV Product Schema", type := .XML,
                           description := productSchemaDescription, roles := ["metadata"] }),
   ("schema-product-vh", { title := "VH Product Schema", type := .XML,
                           description := productSchemaDescription, roles := ["metadata"] }),
   ("schema-product-vv", { title := "VV Product Schema", type := .XML,
                           description := productSchemaDescription, roles := ["metadata"] }),
   ("safe-manifest", { title := "Manifest File", type := .XML,
                       description := manifestDescription, roles := ["metadata"] }),
   ("thumbnail", { title := "Preview Image", type := .PNG,
                   description := thumbnailDescription, roles := ["thumbnail"] })]

/-! ### create_collection (`stac.py`, lines 33-85) -/

/-- Summaries of the collection after the SAR and satellite extension
setters of `create_collection` ran, in source order (lines 62-79). -/
def slcSummaries (summary_dict : List (String × JVal)) : List (String × JVal) :=
  let s := setKey summary_dict "sar:looks_range" SENTINEL_SLC_SAR.looks_range
  let s := setKey s "sar:product_type" SENTINEL_SLC_SAR.product_type
  let s := setKey s "sar:looks_azimuth" SENTINEL_SLC_SAR.looks_azimuth
  let s := setKey s "sar:polarizations" SENTINEL_SLC_SAR.polarizations
  let s := setKey s "sar:frequency_band" SENTINEL_SLC_SAR.frequency_band
  let s := setKey s "sar:instrument_mode" SENTINEL_SLC_SAR.instrument_mode
  let s := setKey s "sar:center_frequency" SENTINEL_SLC_SAR.center_frequency
  let s := setKey s "sar:resolution_range" SENTINEL_SLC_SAR.resolution_range
  let s := setKey s "sar:resolution_azimuth" SENTINEL_SLC_SAR.resolution_azimuth
  let s := setKey s "sar:pixel_spacing_range" SENTINEL_SLC_SAR.pixel_spacing_range
  let s := setKey s "sar:pixel_spacing_azimuth" SENTINEL_SLC_SAR.pixel_spacing_azimuth
  let s := setKey s "sar:observation_direction" SENTINEL_SLC_SAR.observation_direction
  let s := setKey s "sar:looks_equivalent_number" SENTINEL_SLC_SAR.looks_equivalent_number
  setKey s "sat:orbit_state" SENTINEL_SLC_SAT.orbit_state

/-- Embedding of `create_collection`.  The record mirrors the pystac
`Collection` constructor call of lines 41-55; the remaining fields record
the effect of the subsequent statements: the two appended links (lines
58-59), the SAR and satellite summaries (lines 62-79, `slcSummaries`), the
`add_if_missing=True` extension registrations on `stac_extensions` (the
sar and sat schemas are already present, the item-assets schema is
appended), and the item asset definitions (line 83). -/
def createCollection (json_path : String) : Collection :=
  let summary_dict : List (String × JVal) :=
    [("constellation", .sarr [SENTINEL_CONSTELLATION]),
     ("platform", .sarr SENTINEL_PLATFORMS)]
  { id := "sentinel1-slc"
    description := SENTINEL_SLC_DESCRIPTION
    title := "Sentinel-1 SLC"
    href := json_path
    spatial_extent := SENTINEL_SLC_SPATIAL_EXTENT
    temporal_extent_start := SENTINEL_SLC_START
    temporal_extent_end := none
    stac_extensions :=
      addIfMissing
        (addIfMissing
          (addIfMissing [sarSchemaUri, satSchemaUri, eoSchemaUri] sarSchemaUri)
          satSchemaUri)
        itemAssetsSchemaUri
    keywords := SENTINEL_SLC_KEYWORDS
    providers := [SENTINEL_PROVIDER]
    summaries := slcSummaries summary_dict
    links := [] ++ [SENTINEL_SLC_LICENSE, SENTINEL_SLC_TECHNICAL_GUIDE]
    item_assets := SENTINEL_SLC_ASSETS }

/-! ### Models of the third-party helpers used by create_item -/

/-- Model of `os.path.join(a, b)` on POSIX paths, as used on line 232. -/
def osJoin (a b : String) : String :=
  if b.data.head? = some '/' then b
  else if a.data = [] ∨ a.data.getLast? = some '/' then a ++ b
  else a ++ "/" ++ b

/-- Model of Python `str.upper()`: character-wise upper-casing (written
with an explicit character map so that it evaluates by reduction). -/
def strUpper (s : String) : String := ⟨s.data.map Char.toUpper⟩

/-- Model of Python `str.lower()`: character-wise lower-casing. -/
def strLower (s : String) : String := ⟨s.data.map Char.toLower⟩

/-- Model of Python `round(x, 5)` on the rational model of coordinates
(the tie-breaking of binary floats at exact half ties is not modelled). -/
def round5 (x : ℚ) : ℚ := (round (x * 100000) : ℤ) / 100000

/-- Model of `stactools.core.projection.transform_from_bbox(bbox, shape)`:
`[(bbox[2]-bbox[0])/shape[1], 0, bbox[0], 0, -(bbox[3]-bbox[1])/shape[0], bbox[3]]`. -/
def transform_from_bbox (bbox : List ℚ) (shape : List Nat) : List ℚ :=
  [(bbox.getD 2 0 - bbox.getD 0 0) / (shape.getD 1 0 : ℚ), 0, bbox.getD 0 0,
   0, -((bbox.getD 3 0 - bbox.getD 1 0) / (shape.getD 0 0 : ℚ)), bbox.getD 3 0]

/-- The `images_media_type` computation of `create_item` (lines 223-227). -/
def imagesMediaType (archive_format : ArchiveFormat) : Option MediaType :=
  let images_media_type : Option MediaType := none
  if archive_format = ArchiveFormat.SAFE then some MediaType.GEOTIFF
  else if archive_format = ArchiveFormat.COG then some MediaType.COG
  else images_media_type

/-- The thumbnail asset built inline in `create_item` (lines 203-221). -/
def thumbnailAsset (href : String) : Asset :=
  { href := href
    media_type := some MediaType.PNG
    roles := ["thumbnail"]
    title := some "Preview Image"
    description := some thumbnailDescription
    extra := [] }

/-! ### Inputs of create_item

`create_item` reads everything it needs from `SLCMetadataLinks`,
`SLCProductMetadata`, the manifest, and the helper functions of the
repository that are not among the source files.  Those reads are modelled
as the fields of this record; fallible reads (required metadata fields
that make the call raise when missing) are `Option`- or `Except`-valued. -/

/-- Modelled from the spec: the data `create_item` obtains from the
product and manifest XML and from the repository helpers missing from
src/ (`SLCProductMetadata`, `SLCMetadataLinks`, `extract_properties`,
`image_asset_from_href`, `fill_*_properties`, `get_shape`).  Required
fields that raise when absent are `Option`s (`none` models the missing
field); the property fillers are `Except`-valued key-value lists; the
asset creators are given by their resulting assets, keyed as in the
item-assets schema of `constants.py` (`safe-manifest`, `schema-product-*`,
`schema-calibration-*`, `schema-noise-*`, `thumbnail`). -/
structure Inputs where
  granule_href : String
  archive_format : ArchiveFormat
  scene_id : Option String
  geometry : Option Geometry
  bbox : Option (List ℚ)
  get_datetime : Option String
  platform : Option String
  metadata_dict : Option (List (String × JVal))
  image_paths : Option (List String)
  shape : Option (List Nat)
  sar_props : Except String (List (String × JVal))
  sat_props : Except String (List (String × JVal))
  proc_props : Except String (List (String × JVal))
  manifest_pdt : Option String
  thumbnail_href : Option String
  manifest_asset : Asset
  product_assets : List (String × Asset)
  calibration_assets : List (String × Asset)
  noise_assets : List (String × Asset)
  image_asset : String → Option MediaType → String × Asset
  extract_props : String → String × String
  fill_swath_sar : String → String → List (String × JVal)
  centroid : Geometry → ℚ × ℚ

/-! ### create_item (`stac.py`, lines 88-254) -/

/-- `item.add_asset(key, asset)`: pystac stores the asset under the key. -/
def addAsset (it : Item) (key : String) (a : Asset) : Item :=
  { it with assets := setKey it.assets key a }

/-- The asset key computed in the image-asset loop (lines 242-243):
`extract_properties` yields `(polarisation, swath)` and the key is
`"{swath}-{polarisation}"` (written with explicit appends). -/
def keyOfAsset (inp : Inputs) (a : Asset) : String :=
  (inp.extract_props a.href).2 ++ "-" ++ (inp.extract_props a.href).1

/-- The asset after `fill_swath_sar_properties` ran on its SAR extension
with the upper-cased swath and polarisation (line 248). -/
def xformAsset (inp : Inputs) (a : Asset) : Asset :=
  let polarisation := (inp.extract_props a.href).1
  let swath := (inp.extract_props a.href).2
  { a with extra := updKVs a.extra (inp.fill_swath_sar (strUpper swath) (strUpper polarisation)) }

/-- One iteration of the image-asset loop (lines 241-248): compute the
key, `assert key not in item.assets` (a failing assertion raises), add the
asset, register the asset SAR extension (`add_if_missing=True` touches the
owning item), and fill the swath SAR properties on the asset. -/
def addImageAsset (inp : Inputs) (it : Item) (a : Asset) : Except String Item :=
  let key := keyOfAsset inp a
  if hasKey it.assets key then Except.error "AssertionError: key in item.assets"
  else Except.ok
    { it with
      assets := setKey it.assets key (xformAsset inp a)
      stac_extensions := addIfMissing it.stac_extensions sarSchemaUri }

/-- The deduplicated image assets of lines 229-239: `dict(...)` over
`image_asset_from_href` results for the joined image paths, then
`.values()`. -/
def imageVals (inp : Inputs) (paths : List String) : List Asset :=
  (dictOfPairs (paths.map (fun p =>
    inp.image_asset (osJoin inp.granule_href p)
      (imagesMediaType inp.archive_format)))).map Prod.snd

/-- The item properties as filled before the image-asset loop, in source
order: the SAR, satellite and processing fills (lines 141-152), the
projection fields (154-165), the common metadata with the platform
lowered when truthy and left unset when None (168-174), and the s1
properties, where the walrus test on the processing stop attribute is
Python truthiness, so an empty string is skipped too (177-183). -/
def preProps (sarP satP procP : List (String × JVal)) (b : List ℚ)
    (shape : List Nat) (cen : ℚ × ℚ) (platform : Option String)
    (md : List (String × JVal)) (scene_id : String) (pdt : Option String) :
    List (String × JVal) :=
  let props := updKVs [] sarP
  let props := updKVs props satP
  let props := updKVs props procP
  let props := setKey props "proj:epsg" (JVal.i 4326)
  let props := setKey props "proj:bbox" (JVal.qarr b)
  let props := setKey props "proj:shape" (JVal.narr shape)
  let props := setKey props "proj:transform" (JVal.qarr (transform_from_bbox b shape))
  let props := setKey props "proj:centroid" (JVal.cen (round5 cen.2) (round5 cen.1))
  let props := setKey props "providers" (JVal.providers [SENTINEL_PROVIDER])
  let props :=
    match platform with
    | some p => setKey props "platform" (JVal.s (strLower p))
    | none => props
  let props := setKey props "constellation" (JVal.s SENTINEL_CONSTELLATION)
  let props := updKVs props md
  let props := setKey props "s1:product_identifier" (JVal.s scene_id)
  match pdt with
  | some s => if s = "" then props else setKey props "s1:processing_datetime" (JVal.s (s ++ "Z"))
  | none => props

/-- The schema URIs accumulated on `stac_extensions` by the four
`add_if_missing=True` extension registrations before the image loop. -/
def preExts : List String :=
  addIfMissing
    (addIfMissing (addIfMissing (addIfMissing [] sarSchemaUri) satSchemaUri) eoSchemaUri)
    projSchemaUri

/-- The assets added before the thumbnail (lines 186-198): the manifest
asset and the annotation, calibration and noise assets for the bands,
under their keys from the item-assets schema of `constants.py`. -/
def preAssetsBase (inp : Inputs) : List (String × Asset) :=
  let as := setKey [] "safe-manifest" inp.manifest_asset
  let as := inp.product_assets.foldl
    (fun m pa => setKey m ("schema-product-" ++ pa.1) pa.2) as
  let as := inp.calibration_assets.foldl
    (fun m pa => setKey m ("schema-calibration-" ++ pa.1) pa.2) as
  inp.noise_assets.foldl
    (fun m pa => setKey m ("schema-noise-" ++ pa.1) pa.2) as

/-- The assets added before the image-asset loop (lines 186-221):
`preAssetsBase` plus the optional thumbnail (lines 203-221). -/
def preAssets (inp : Inputs) : List (String × Asset) :=
  match inp.thumbnail_href with
  | some th => setKey (preAssetsBase inp) "thumbnail" (thumbnailAsset th)
  | none => preAssetsBase inp

/-- The item as it stands right before the image-asset loop of line 241,
given the successfully extracted metadata: the `pystac.Item` constructor
call of lines 130-137 (the item id drops the last 5 characters of the
scene id, line 128) together with the property, extension and asset state
accumulated by lines 140-221. -/
def preItem (inp : Inputs) (scene_id : String) (g : Geometry) (b : List ℚ)
    (dt : String) (sarP satP procP : List (String × JVal)) (shape : List Nat)
    (md : List (String × JVal)) : Item :=
  { id := scene_id.dropRight 5
    geometry := g
    bbox := b
    datetime := dt
    properties :=
      preProps sarP satP procP b shape (inp.centroid g) inp.platform md
        scene_id inp.manifest_pdt
    stac_extensions := preExts
    assets := preAssets inp
    links := [] }

/-- Embedding of `create_item`.  The required metadata reads are matched
in the order the source performs them; any missing required field or
failing filler raises, which the model returns as `Except.error` (the
particular exception message is not modelled).  On the happy path the
image-asset loop runs over the deduplicated image assets and the license
and technical-guide links are appended last (lines 251-252). -/
def createItem (inp : Inputs) : Except String Item :=
  match inp.scene_id, inp.geometry, inp.bbox, inp.get_datetime, inp.sar_props,
      inp.sat_props, inp.proc_props, inp.shape, inp.metadata_dict, inp.image_paths with
  | some scene_id, some g, some b, some dt, Except.ok sarP, Except.ok satP,
      Except.ok procP, some shape, some md, some paths =>
    Except.map
      (fun it => { it with
        links := it.links ++ [SENTINEL_SLC_LICENSE, SENTINEL_SLC_TECHNICAL_GUIDE] })
      ((imageVals inp paths).foldlM (addImageAsset inp)
        (preItem inp scene_id g b dt sarP satP procP shape md))
  | _, _, _, _, _, _, _, _, _, _ =>
    Except.error "missing required metadata field"

/-- Whether the call returned an item (no exception was raised). -/
def okB {α : Type} : Except String α → Bool
  | Except.ok _ => true
  | Except.error _ => false

/-- Success condition of the image-asset loop, as a chain: every computed
key must be fresh with respect to the keys seen so far. -/
def freshChain (inp : Inputs) (ks : List String) : List Asset → Bool
  | [] => true
  | a :: rest =>
      if keyOfAsset inp a ∈ ks then false
      else freshChain inp (ks ++ [keyOfAsset inp a]) rest

/-- The inputs with the three optional reads removed: the manifest
platform, the SLC Post Processing stop time and the thumbnail href. -/
def stripOptionals (inp : Inputs) : Inputs :=
  { inp with platform := none, manifest_pdt := none, thumbnail_href := none }

/-! ### A concrete sample product, used to evaluate the theorems -/

/-- A concrete metadata asset for the sample product. -/
def sampleAsset (href : String) : Asset :=
  { href := href
    media_type := some MediaType.XML
    roles := ["metadata"]
    title := none
    description := none
    extra := [] }

/-- A concrete, well-formed sample input for `create_item`. -/
def sampleInputs : Inputs :=
  { granule_href := "g"
    archive_format := ArchiveFormat.SAFE
    scene_id := some "SCENE_AB123"
    geometry := some [(1, 2), (3, 2), (3, 4), (1, 4), (1, 2)]
    bbox := some [1, 2, 3, 4]
    get_datetime := some "2020-01-01T00:00:12Z"
    platform := some "SENTINEL-1A"
    metadata_dict := some [("s1:orbit_source", JVal.s "DOWNLINK")]
    image_paths := some ["m/vv.tiff", "m/vh.tiff"]
    shape := some [2, 3]
    sar_props := Except.ok [("sar:instrument_mode", JVal.s "IW")]
    sat_props := Except.ok [("sat:orbit_state", JVal.s "ascending")]
    proc_props := Except.ok [("processing:software", JVal.s "ipf")]
    manifest_pdt := some "2020-01-01T01:00:00"
    thumbnail_href := some "g/quick-look.png"
    manifest_asset := sampleAsset "g/manifest.safe"
    product_assets := [("vv", sampleAsset "g/a/vv.xml"), ("vh", sampleAsset "g/a/vh.xml")]
    calibration_assets :=
      [("vv", sampleAsset "g/a/c/vv.xml"), ("vh", sampleAsset "g/a/c/vh.xml")]
    noise_assets := [("vv", sampleAsset "g/a/n/vv.xml"), ("vh", sampleAsset "g/a/n/vh.xml")]
    image_asset := fun href mt =>
      (href, { href := href, media_type := mt, roles := ["data"], title := none,
               description := none, extra := [] })
    extract_props := fun href =>
      if href = "g/m/vv.tiff" then ("vv", "iw1") else ("vh", "iw1")
    fill_swath_sar := fun sw pol =>
      [("sar:polarizations", JVal.sarr [pol]), ("sar:instrument_mode", JVal.s sw)]
    centroid := fun _ => (2, 3) }

/-- The sample input with the manifest platform absent. -/
def c2Input : Inputs := { sampleInputs with platform := none }

/-- The item produced for the sample input. -/
def sampleItem : Item :=
  match createItem sampleInputs with
  | Except.ok it => it
  | Except.error _ => default

/-! ### Lemmas on the dictionary model -/

theorem getKey_setKey_self {α : Type} (m : List (String × α)) (k : String) (v : α) :
    getKey (setKey m k v) k = some v := by
  induction m with
  | nil => simp [setKey, getKey]
  | cons p rest ih =>
      by_cases h : p.1 = k
      · simp [setKey, h, getKey]
      · simp [setKey, h, getKey, ih]

theorem getKey_setKey_ne {α : Type} (m : List (String × α)) {k k' : String} (v : α)
    (h : k' ≠ k) : getKey (setKey m k v) k' = getKey m k' := by
  induction m with
  | nil => simp [setKey, getKey, Ne.symm h]
  | cons p rest ih =>
      by_cases hp : p.1 = k
      · subst hp
        simp [setKey, getKey, Ne.symm h]
      · simp only [setKey, hp, if_false, getKey]
        by_cases hp' : p.1 = k'
        · simp [hp']
        · simp [hp', ih]

theorem setKey_of_not_has {α : Type} (m : List (String × α)) (k : String) (v : α)
    (h : hasKey m k = false) : setKey m k v = m ++ [(k, v)] := by
  induction m with
  | nil => simp [setKey]
  | cons p rest ih =>
      by_cases hp : p.1 = k
      · simp [hasKey, getKey, hp] at h
      · simp only [hasKey, getKey, hp, if_false] at h
        simp [setKey, hp, ih h]

theorem hasKey_iff_mem {α : Type} (m : List (String × α)) (k : String) :
    hasKey m k = true ↔ k ∈ m.map Prod.fst := by
  induction m with
  | nil => simp [hasKey, getKey]
  | cons p rest ih =>
      by_cases hp : p.1 = k
      · simp [hasKey, getKey, hp]
      · simp only [hasKey, getKey, hp, if_false, List.map_cons, List.mem_cons]
        rw [← hasKey]
        constructor
        · intro h; exact Or.inr (ih.mp h)
        · intro h
          rcases h with h | h
          · exact absurd h.symm hp
          · exact ih.mpr h

theorem getKey_eq_none_of_not_mem {α : Type} (m : List (String × α)) (k : String)
    (h : k ∉ m.map Prod.fst) : getKey m k = none := by
  induction m with
  | nil => rfl
  | cons p rest ih =>
      simp only [List.map_cons, List.mem_cons] at h
      push_neg at h
      simp [getKey, Ne.symm h.1, ih h.2]

theorem getKey_updKVs_not_mem {α : Type} (l : List (String × α)) :
    ∀ (m : List (String × α)) (k : String), (∀ kv ∈ l, kv.1 ≠ k) →
    getKey (updKVs m l) k = getKey m k := by
  induction l with
  | nil => intro m k _; rfl
  | cons kv rest ih =>
      intro m k h
      have h1 : kv.1 ≠ k := h kv (List.mem_cons_self kv rest)
      show getKey (updKVs (setKey m kv.1 kv.2) rest) k = getKey m k
      rw [ih (setKey m kv.1 kv.2) k (fun kv' h' => h kv' (List.mem_cons_of_mem kv h')),
        getKey_setKey_ne m kv.2 (fun he => h1 he.symm)]

theorem getKey_updKVs_mem {α : Type} (l : List (String × α)) :
    ∀ (m : List (String × α)) (kv : String × α), (l.map Prod.fst).Nodup → kv ∈ l →
    getKey (updKVs m l) kv.1 = some kv.2 := by
  induction l with
  | nil => intro m kv _ h; cases h
  | cons a rest ih =>
      intro m kv hnd hmem
      simp only [List.map_cons, List.nodup_cons] at hnd
      rcases List.mem_cons.mp hmem with h | h
      · subst h
        show getKey (updKVs (setKey m kv.1 kv.2) rest) kv.1 = some kv.2
        rw [getKey_updKVs_not_mem rest (setKey m kv.1 kv.2) kv.1
            (fun kv' h' hk => hnd.1 (hk ▸ List.mem_map_of_mem Prod.fst h')),
          getKey_setKey_self]
      · exact ih (setKey m a.1 a.2) kv hnd.2 h

theorem mem_keys_setKey {α : Type} (m : List (String × α)) (k k' : String) (v : α)
    (h : k' ∈ (setKey m k v).map Prod.fst) : k' ∈ m.map Prod.fst ∨ k' = k := by
  induction m with
  | nil =>
      simp only [setKey, List.map_cons, List.map_nil, List.mem_cons,
        List.not_mem_nil, or_false] at h
      exact Or.inr h
  | cons p rest ih =>
      by_cases hp : p.1 = k
      · simp only [setKey, hp, if_true, List.map_cons, List.mem_cons] at h
        rcases h with h | h
        · exact Or.inr h
        · exact Or.inl (by rw [List.map_cons]; exact List.mem_cons_of_mem _ h)
      · simp only [setKey, hp, if_false, List.map_cons, List.mem_cons] at h
        rcases h with h | h
        · exact Or.inl (by rw [List.map_cons, h]; exact List.mem_cons_self _ _)
        · rcases ih h with h' | h'
          · exact Or.inl (by rw [List.map_cons]; exact List.mem_cons_of_mem _ h')
          · exact Or.inr h'

theorem mem_keys_updKVs {α : Type} (l : List (String × α)) :
    ∀ (m : List (String × α)) (k' : String), k' ∈ (updKVs m l).map Prod.fst →
    k' ∈ m.map Prod.fst ∨ k' ∈ l.map Prod.fst := by
  induction l with
  | nil => intro m k' h; exact Or.inl h
  | cons a rest ih =>
      intro m k' h
      rcases ih (setKey m a.1 a.2) k' h with h' | h'
      · rcases mem_keys_setKey m a.1 k' a.2 h' with h'' | h''
        · exact Or.inl h''
        · exact Or.inr (by simp [h''])
      · exact Or.inr (List.mem_cons_of_mem _ h')

theorem getKey_isSome_mem {α : Type} (m : List (String × α)) (k : String)
    (h : (getKey m k).isSome = true) : k ∈ m.map Prod.fst := by
  induction m with
  | nil => simp [getKey] at h
  | cons p rest ih =>
      by_cases hp : p.1 = k
      · simp [hp]
      · simp only [getKey, hp, if_false] at h
        exact List.mem_cons_of_mem _ (ih h)

theorem keys_setKey_of_not_has {α : Type} (m : List (String × α)) (k : String) (v : α)
    (h : hasKey m k = false) :
    (setKey m k v).map Prod.fst = m.map Prod.fst ++ [k] := by
  rw [setKey_of_not_has m k v h, List.map_append, List.map_cons, List.map_nil]

theorem mem_keys_of_mem_setKey {α : Type} (m : List (String × α)) (k k' : String) (v : α)
    (h : k' ∈ m.map Prod.fst) : k' ∈ (setKey m k v).map Prod.fst := by
  induction m with
  | nil => cases h
  | cons p rest ih =>
      by_cases hp : p.1 = k
      · simp only [setKey, hp, if_true, List.map_cons, List.mem_cons]
        simp only [List.map_cons, List.mem_cons] at h
        rcases h with h | h
        · exact Or.inl (by rw [h, hp])
        · exact Or.inr h
      · simp only [setKey, hp, if_false, List.map_cons, List.mem_cons]
        simp only [List.map_cons, List.mem_cons] at h
        rcases h with h | h
        · exact Or.inl h
        · exact Or.inr (ih h)

/-! ### Lemmas on the image-asset loop -/

theorem exceptBind_ok {α β : Type} (a : α) (f : α → Except String β) :
    (Except.ok a >>= f) = f a := rfl

theorem exceptBind_err {α β : Type} (e : String) (f : α → Except String β) :
    ((Except.error e : Except String α) >>= f) = Except.error e := rfl

theorem okB_map {α β : Type} (f : α → β) (x : Except String α) :
    okB (Except.map f x) = okB x := by
  cases x <;> rfl

/-- Success of the image-asset loop is exactly the fresh-key chain
condition, starting from the keys of the assets already on the item. -/
theorem foldlM_addImage_okB (inp : Inputs) (l : List Asset) :
    ∀ it : Item, okB (l.foldlM (addImageAsset inp) it)
      = freshChain inp (it.assets.map Prod.fst) l := by
  induction l with
  | nil => intro it; rfl
  | cons a rest ih =>
      intro it
      rw [List.foldlM_cons]
      by_cases h : hasKey it.assets (keyOfAsset inp a) = true
      · have hmem : keyOfAsset inp a ∈ it.assets.map Prod.fst :=
          (hasKey_iff_mem _ _).mp h
        rw [show addImageAsset inp it a
            = Except.error "AssertionError: key in item.assets" by
          simp [addImageAsset, h]]
        rw [exceptBind_err]
        simp [okB, freshChain, hmem]
      · have hb : hasKey it.assets (keyOfAsset inp a) = false :=
          eq_false_of_ne_true h
        have hnmem : keyOfAsset inp a ∉ it.assets.map Prod.fst := fun hm =>
          h ((hasKey_iff_mem _ _).mpr hm)
        rw [show addImageAsset inp it a = Except.ok
            { it with
              assets := setKey it.assets (keyOfAsset inp a) (xformAsset inp a)
              stac_extensions := addIfMissing it.stac_extensions sarSchemaUri } by
          simp [addImageAsset, hb]]
        rw [exceptBind_ok, ih]
        simp only [freshChain, hnmem, if_false]
        rw [keys_setKey_of_not_has it.assets (keyOfAsset inp a) (xformAsset inp a) hb]

/-- When the image-asset loop succeeds, the item it returns is the input
item with the transformed image assets appended under their computed keys;
no existing asset is replaced and no other item field changes (apart from
the already-registered SAR schema on `stac_extensions`). -/
theorem foldlM_addImage_ok_shape (inp : Inputs) (l : List Asset) :
    ∀ it it' : Item, l.foldlM (addImageAsset inp) it = Except.ok it' →
      it'.assets = it.assets ++ l.map (fun a => (keyOfAsset inp a, xformAsset inp a)) ∧
      it'.id = it.id ∧ it'.geometry = it.geometry ∧ it'.bbox = it.bbox ∧
      it'.datetime = it.datetime ∧ it'.properties = it.properties ∧
      it'.links = it.links := by
  induction l with
  | nil =>
      intro it it' h
      have : it = it' := Except.ok.inj h
      subst this
      simp
  | cons a rest ih =>
      intro it it' h
      rw [List.foldlM_cons] at h
      by_cases hk : hasKey it.assets (keyOfAsset inp a) = true
      · rw [show addImageAsset inp it a
            = Except.error "AssertionError: key in item.assets" by
            simp [addImageAsset, hk],
          exceptBind_err] at h
        cases h
      · have hb : hasKey it.assets (keyOfAsset inp a) = false :=
          eq_false_of_ne_true hk
        rw [show addImageAsset inp it a = Except.ok
            { it with
              assets := setKey it.assets (keyOfAsset inp a) (xformAsset inp a)
              stac_extensions := addIfMissing it.stac_extensions sarSchemaUri } by
          simp [addImageAsset, hb],
          exceptBind_ok] at h
        obtain ⟨h1, h2, h3, h4, h5, h6, h7⟩ := ih _ it' h
        refine ⟨?_, h2, h3, h4, h5, h6, h7⟩
        rw [h1]
        simp only []
        rw [setKey_of_not_has it.assets (keyOfAsset inp a) (xformAsset inp a) hb,
          List.map_cons, List.append_assoc, List.singleton_append]

/-! ### Lemmas on the fresh-key chain -/

theorem freshChain_mono (inp : Inputs) (l : List Asset) :
    ∀ ks ks' : List String, (∀ k, k ∈ ks → k ∈ ks') →
      freshChain inp ks' l = true → freshChain inp ks l = true := by
  induction l with
  | nil => intro ks ks' _ _; rfl
  | cons a rest ih =>
      intro ks ks' hsub h
      by_cases hk : keyOfAsset inp a ∈ ks'
      · simp [freshChain, hk] at h
      · have hk2 : keyOfAsset inp a ∉ ks := fun hm => hk (hsub _ hm)
        simp only [freshChain, hk, if_false] at h
        simp only [freshChain, hk2, if_false]
        refine ih _ _ ?_ h
        intro k hm
        rcases List.mem_append.mp hm with hm | hm
        · exact List.mem_append.mpr (Or.inl (hsub _ hm))
        · exact List.mem_append.mpr (Or.inr hm)

theorem freshChain_of_fresh (inp : Inputs) (l : List Asset) :
    ∀ ks : List String, (∀ a ∈ l, keyOfAsset inp a ∉ ks) →
      (l.map (keyOfAsset inp)).Nodup → freshChain inp ks l = true := by
  induction l with
  | nil => intro ks _ _; rfl
  | cons a rest ih =>
      intro ks h1 h2
      simp only [List.map_cons, List.nodup_cons] at h2
      have ha : keyOfAsset inp a ∉ ks := h1 a (List.mem_cons_self a rest)
      simp only [freshChain, ha, if_false]
      refine ih _ ?_ h2.2
      intro x hx hmem
      rcases List.mem_append.mp hmem with hm | hm
      · exact h1 x (List.mem_cons_of_mem a hx) hm
      · have : keyOfAsset inp x = keyOfAsset inp a := List.mem_singleton.mp hm
        exact h2.1 (this ▸ List.mem_map_of_mem (keyOfAsset inp) hx)

theorem freshChain_false_of_mem (inp : Inputs) (l : List Asset) :
    ∀ (ks : List String) (k : String), k ∈ ks → k ∈ l.map (keyOfAsset inp) →
      freshChain inp ks l = false := by
  induction l with
  | nil => intro ks k _ h; cases h
  | cons a rest ih =>
      intro ks k hks hmem
      by_cases ha : keyOfAsset inp a ∈ ks
      · simp [freshChain, ha]
      · simp only [freshChain, ha, if_false]
        rcases List.mem_cons.mp (List.map_cons (keyOfAsset inp) a rest ▸ hmem) with h | h
        · exact absurd (h ▸ hks) ha
        · exact ih _ k (List.mem_append.mpr (Or.inl hks)) h

theorem freshChain_false_of_dup (inp : Inputs) (l : List Asset) :
    ∀ ks : List String, ¬ (l.map (keyOfAsset inp)).Nodup →
      freshChain inp ks l = false := by
  induction l with
  | nil => intro ks h; exact absurd List.nodup_nil h
  | cons a rest ih =>
      intro ks h
      by_cases ha : keyOfAsset inp a ∈ ks
      · simp [freshChain, ha]
      · simp only [freshChain, ha, if_false]
        rw [List.map_cons, List.nodup_cons] at h
        push_neg at h
        by_cases hmem : keyOfAsset inp a ∈ rest.map (keyOfAsset inp)
        · exact freshChain_false_of_mem inp rest _ _
            (List.mem_append.mpr (Or.inr (List.mem_singleton.mpr rfl))) hmem
        · exact ih _ (h hmem)

/-! ### Lemmas on create_item -/

/-- When every required field is present, `create_item` is the image-asset
loop over `preItem` followed by appending the two links. -/
theorem createItem_eq_of_fields (inp : Inputs) (scene_id : String) (g : Geometry)
    (b : List ℚ) (dt : String) (sarP satP procP : List (String × JVal))
    (shape : List Nat) (md : List (String × JVal)) (paths : List String)
    (h1 : inp.scene_id = some scene_id) (h2 : inp.geometry = some g)
    (h3 : inp.bbox = some b) (h4 : inp.get_datetime = some dt)
    (h5 : inp.sar_props = Except.ok sarP) (h6 : inp.sat_props = Except.ok satP)
    (h7 : inp.proc_props = Except.ok procP) (h8 : inp.shape = some shape)
    (h9 : inp.metadata_dict = some md) (h10 : inp.image_paths = some paths) :
    createItem inp = Except.map
      (fun it => { it with
        links := it.links ++ [SENTINEL_SLC_LICENSE, SENTINEL_SLC_TECHNICAL_GUIDE] })
      ((imageVals inp paths).foldlM (addImageAsset inp)
        (preItem inp scene_id g b dt sarP satP procP shape md)) := by
  unfold createItem
  rw [h1, h2, h3, h4, h5, h6, h7, h8, h9, h10]

/-- Inversion: a successful `create_item` call determines every required
field, a successful image-asset loop, and the final link append. -/
theorem createItem_ok_elim {inp : Inputs} {it : Item}
    (h : createItem inp = Except.ok it) :
    ∃ (scene_id : String) (g : Geometry) (b : List ℚ) (dt : String)
      (sarP satP procP : List (String × JVal)) (shape : List Nat)
      (md : List (String × JVal)) (paths : List String) (it0 : Item),
      inp.scene_id = some scene_id ∧ inp.geometry = some g ∧ inp.bbox = some b ∧
      inp.get_datetime = some dt ∧ inp.sar_props = Except.ok sarP ∧
      inp.sat_props = Except.ok satP ∧ inp.proc_props = Except.ok procP ∧
      inp.shape = some shape ∧ inp.metadata_dict = some md ∧
      inp.image_paths = some paths ∧
      (imageVals inp paths).foldlM (addImageAsset inp)
        (preItem inp scene_id g b dt sarP satP procP shape md) = Except.ok it0 ∧
      it = { it0 with
        links := it0.links ++ [SENTINEL_SLC_LICENSE, SENTINEL_SLC_TECHNICAL_GUIDE] } := by
  unfold createItem at h
  cases h1 : inp.scene_id with
  | none => rw [h1] at h; cases h
  | some scene_id =>
  rw [h1] at h
  cases h2 : inp.geometry with
  | none => rw [h2] at h; cases h
  | some g =>
  rw [h2] at h
  cases h3 : inp.bbox with
  | none => rw [h3] at h; cases h
  | some b =>
  rw [h3] at h
  cases h4 : inp.get_datetime with
  | none => rw [h4] at h; cases h
  | some dt =>
  rw [h4] at h
  cases h5 : inp.sar_props with
  | error e => rw [h5] at h; cases h
  | ok sarP =>
  rw [h5] at h
  cases h6 : inp.sat_props with
  | error e => rw [h6] at h; cases h
  | ok satP =>
  rw [h6] at h
  cases h7 : inp.proc_props with
  | error e => rw [h7] at h; cases h
  | ok procP =>
  rw [h7] at h
  cases h8 : inp.shape with
  | none => rw [h8] at h; cases h
  | some shape =>
  rw [h8] at h
  cases h9 : inp.metadata_dict with
  | none => rw [h9] at h; cases h
  | some md =>
  rw [h9] at h
  cases h10 : inp.image_paths with
  | none => rw [h10] at h; cases h
  | some paths =>
  rw [h10] at h
  have h' : Except.map
      (fun it => { it with
        links := it.links ++ [SENTINEL_SLC_LICENSE, SENTINEL_SLC_TECHNICAL_GUIDE] })
      ((imageVals inp paths).foldlM (addImageAsset inp)
        (preItem inp scene_id g b dt sarP satP procP shape md)) = Except.ok it := h
  cases hf : (imageVals inp paths).foldlM (addImageAsset inp)
      (preItem inp scene_id g b dt sarP satP procP shape md) with
  | error e => rw [hf] at h'; cases h'
  | ok it0 =>
      rw [hf] at h'
      exact ⟨scene_id, g, b, dt, sarP, satP, procP, shape, md, paths, it0,
        rfl, rfl, rfl, rfl, rfl, rfl, rfl, rfl, rfl, rfl, hf, (Except.ok.inj h').symm⟩

/-- Success of `create_item`, given the required fields, is exactly the
fresh-key chain condition over the pre-existing asset keys. -/
theorem createItem_okB_eq (inp : Inputs) (scene_id : String) (g : Geometry)
    (b : List ℚ) (dt : String) (sarP satP procP : List (String × JVal))
    (shape : List Nat) (md : List (String × JVal)) (paths : List String)
    (h1 : inp.scene_id = some scene_id) (h2 : inp.geometry = some g)
    (h3 : inp.bbox = some b) (h4 : inp.get_datetime = some dt)
    (h5 : inp.sar_props = Except.ok sarP) (h6 : inp.sat_props = Except.ok satP)
    (h7 : inp.proc_props = Except.ok procP) (h8 : inp.shape = some shape)
    (h9 : inp.metadata_dict = some md) (h10 : inp.image_paths = some paths) :
    okB (createItem inp)
      = freshChain inp ((preAssets inp).map Prod.fst) (imageVals inp paths) := by
  rw [createItem_eq_of_fields inp scene_id g b dt sarP satP procP shape md paths
      h1 h2 h3 h4 h5 h6 h7 h8 h9 h10,
    okB_map,
    foldlM_addImage_okB inp (imageVals inp paths)
      (preItem inp scene_id g b dt sarP satP procP shape md)]
  rfl

/-! ### String helpers for key-prefix reasoning -/

theorem ne_of_take_eq_of_take_ne {k c : String} {n : Nat} {l : List Char}
    (hk : k.data.take n = l) (hc : c.data.take n ≠ l) : k ≠ c :=
  fun he => hc (he ▸ hk)

theorem take_of_take {s : String} {m n : Nat} {l : List Char}
    (h : s.data.take m = l) (hn : n ≤ m) : s.data.take n = l.take n := by
  rw [← h, List.take_take, Nat.min_eq_left hn]

/-! ### Lookup lemmas on the pre-loop properties -/

/-- Walking `preProps` from the outside in, past the s1 and common
metadata writes, down to the projection fields. -/
theorem getKey_preProps_to_proj (sarP satP procP : List (String × JVal))
    (b : List ℚ) (shape : List Nat) (cen : ℚ × ℚ) (platform : Option String)
    (md : List (String × JVal)) (scene_id : String) (pdt : Option String)
    (k : String)
    (hmd : ∀ kv ∈ md, kv.1 ≠ k)
    (hne1 : k ≠ "s1:processing_datetime") (hne2 : k ≠ "s1:product_identifier")
    (hne3 : k ≠ "constellation") (hne4 : k ≠ "platform") (hne5 : k ≠ "providers") :
    getKey (preProps sarP satP procP b shape cen platform md scene_id pdt) k
      = getKey (setKey (setKey (setKey (setKey (setKey
          (updKVs (updKVs (updKVs [] sarP) satP) procP)
          "proj:epsg" (JVal.i 4326))
          "proj:bbox" (JVal.qarr b))
          "proj:shape" (JVal.narr shape))
          "proj:transform" (JVal.qarr (transform_from_bbox b shape)))
          "proj:centroid" (JVal.cen (round5 cen.2) (round5 cen.1))) k := by
  cases pdt with
  | none =>
      cases platform with
      | none =>
          simp only [preProps]
          rw [getKey_setKey_ne _ _ hne2, getKey_updKVs_not_mem md _ _ hmd,
            getKey_setKey_ne _ _ hne3, getKey_setKey_ne _ _ hne5]
      | some p =>
          simp only [preProps]
          rw [getKey_setKey_ne _ _ hne2, getKey_updKVs_not_mem md _ _ hmd,
            getKey_setKey_ne _ _ hne3, getKey_setKey_ne _ _ hne4,
            getKey_setKey_ne _ _ hne5]
  | some s =>
      by_cases hs : s = ""
      · cases platform with
        | none =>
            simp only [preProps, hs, if_true]
            rw [getKey_setKey_ne _ _ hne2, getKey_updKVs_not_mem md _ _ hmd,
              getKey_setKey_ne _ _ hne3, getKey_setKey_ne _ _ hne5]
        | some p =>
            simp only [preProps, hs, if_true]
            rw [getKey_setKey_ne _ _ hne2, getKey_updKVs_not_mem md _ _ hmd,
              getKey_setKey_ne _ _ hne3, getKey_setKey_ne _ _ hne4,
              getKey_setKey_ne _ _ hne5]
      · cases platform with
        | none =>
            simp only [preProps, hs, if_false]
            rw [getKey_setKey_ne _ _ hne1, getKey_setKey_ne _ _ hne2,
              getKey_updKVs_not_mem md _ _ hmd,
              getKey_setKey_ne _ _ hne3, getKey_setKey_ne _ _ hne5]
        | some p =>
            simp only [preProps, hs, if_false]
            rw [getKey_setKey_ne _ _ hne1, getKey_setKey_ne _ _ hne2,
              getKey_updKVs_not_mem md _ _ hmd,
              getKey_setKey_ne _ _ hne3, getKey_setKey_ne _ _ hne4,
              getKey_setKey_ne _ _ hne5]

theorem preItem_id (inp : Inputs) (scene_id : String) (g : Geometry) (b : List ℚ)
    (dt : String) (sarP satP procP : List (String × JVal)) (shape : List Nat)
    (md : List (String × JVal)) :
    (preItem inp scene_id g b dt sarP satP procP shape md).id
      = scene_id.dropRight 5 := by
  simp only [preItem]

theorem preItem_geometry (inp : Inputs) (scene_id : String) (g : Geometry) (b : List ℚ)
    (dt : String) (sarP satP procP : List (String × JVal)) (shape : List Nat)
    (md : List (String × JVal)) :
    (preItem inp scene_id g b dt sarP satP procP shape md).geometry = g := by
  simp only [preItem]

theorem preItem_bbox (inp : Inputs) (scene_id : String) (g : Geometry) (b : List ℚ)
    (dt : String) (sarP satP procP : List (String × JVal)) (shape : List Nat)
    (md : List (String × JVal)) :
    (preItem inp scene_id g b dt sarP satP procP shape md).bbox = b := by
  simp only [preItem]

theorem preItem_datetime (inp : Inputs) (scene_id : String) (g : Geometry) (b : List ℚ)
    (dt : String) (sarP satP procP : List (String × JVal)) (shape : List Nat)
    (md : List (String × JVal)) :
    (preItem inp scene_id g b dt sarP satP procP shape md).datetime = dt := by
  simp only [preItem]

theorem preItem_properties (inp : Inputs) (scene_id : String) (g : Geometry) (b : List ℚ)
    (dt : String) (sarP satP procP : List (String × JVal)) (shape : List Nat)
    (md : List (String × JVal)) :
    (preItem inp scene_id g b dt sarP satP procP shape md).properties
      = preProps sarP satP procP b shape (inp.centroid g) inp.platform md
          scene_id inp.manifest_pdt := by
  simp only [preItem]

theorem preItem_links (inp : Inputs) (scene_id : String) (g : Geometry) (b : List ℚ)
    (dt : String) (sarP satP procP : List (String × JVal)) (shape : List Nat)
    (md : List (String × JVal)) :
    (preItem inp scene_id g b dt sarP satP procP shape md).links = [] := by
  simp only [preItem]

theorem preItem_assets (inp : Inputs) (scene_id : String) (g : Geometry) (b : List ℚ)
    (dt : String) (sarP satP procP : List (String × JVal)) (shape : List Nat)
    (md : List (String × JVal)) :
    (preItem inp scene_id g b dt sarP satP procP shape md).assets = preAssets inp := by
  simp only [preItem]

/-- Core shape of a successful `create_item` call: the required fields
exist and the returned item carries the constructor fields and the
pre-loop properties unchanged. -/
theorem createItem_core {inp : Inputs} {it : Item}
    (h : createItem inp = Except.ok it) :
    ∃ (scene_id : String) (g : Geometry) (b : List ℚ) (dt : String)
      (sarP satP procP : List (String × JVal)) (shape : List Nat)
      (md : List (String × JVal)),
      inp.scene_id = some scene_id ∧ inp.geometry = some g ∧ inp.bbox = some b ∧
      inp.get_datetime = some dt ∧ inp.sar_props = Except.ok sarP ∧
      inp.sat_props = Except.ok satP ∧ inp.proc_props = Except.ok procP ∧
      inp.shape = some shape ∧ inp.metadata_dict = some md ∧
      it.id = scene_id.dropRight 5 ∧ it.geometry = g ∧ it.bbox = b ∧
      it.datetime = dt ∧
      it.properties = preProps sarP satP procP b shape (inp.centroid g)
        inp.platform md scene_id inp.manifest_pdt := by
  obtain ⟨scene_id, g, b, dt, sarP, satP, procP, shape, md, paths, it0,
    h1, h2, h3, h4, h5, h6, h7, h8, h9, h10, hf, hit⟩ := createItem_ok_elim h
  obtain ⟨ha, hid, hg, hb, hdt, hp, hl⟩ := foldlM_addImage_ok_shape _ _ _ _ hf
  rw [preItem_id] at hid
  rw [preItem_geometry] at hg
  rw [preItem_bbox] at hb
  rw [preItem_datetime] at hdt
  rw [preItem_properties] at hp
  refine ⟨scene_id, g, b, dt, sarP, satP, procP, shape, md,
    h1, h2, h3, h4, h5, h6, h7, h8, h9, ?_, ?_, ?_, ?_, ?_⟩
  · rw [hit]; exact hid
  · rw [hit]; exact hg
  · rw [hit]; exact hb
  · rw [hit]; exact hdt
  · rw [hit]; exact hp

/-! ### More dictionary lemmas -/

theorem getKey_append {α : Type} (xs ys : List (String × α)) (k : String) :
    getKey (xs ++ ys) k
      = match getKey xs k with
        | some v => some v
        | none => getKey ys k := by
  induction xs with
  | nil => rfl
  | cons p rest ih =>
      by_cases hp : p.1 = k
      · simp [getKey, hp]
      · simp [getKey, hp, ih]

theorem hasKey_append {α : Type} (xs ys : List (String × α)) (k : String) :
    hasKey (xs ++ ys) k = (hasKey xs k || hasKey ys k) := by
  rw [hasKey, getKey_append]
  cases h : getKey xs k with
  | some v => simp [hasKey, h]
  | none => simp [hasKey, h]

theorem hasKey_eq_false_iff {α : Type} (m : List (String × α)) (k : String) :
    hasKey m k = false ↔ getKey m k = none := by
  rw [hasKey]
  cases getKey m k <;> simp

theorem foldl_setKey_append {α : Type} (l : List (String × α)) :
    ∀ acc : List (String × α), (∀ kv ∈ l, hasKey acc kv.1 = false) →
      (l.map Prod.fst).Nodup →
      l.foldl (fun m kv => setKey m kv.1 kv.2) acc = acc ++ l := by
  induction l with
  | nil => intro acc _ _; simp
  | cons kv rest ih =>
      intro acc hfresh hnd
      simp only [List.map_cons, List.nodup_cons] at hnd
      have hkv : hasKey acc kv.1 = false := hfresh kv (List.mem_cons_self kv rest)
      show rest.foldl (fun m kv => setKey m kv.1 kv.2) (setKey acc kv.1 kv.2) = acc ++ kv :: rest
      rw [setKey_of_not_has acc kv.1 kv.2 hkv]
      rw [ih (acc ++ [kv]) ?_ hnd.2]
      · rw [List.append_assoc, List.singleton_append]
      · intro kv' h'
        rw [hasKey_append]
        have h1 : hasKey acc kv'.1 = false := hfresh kv' (List.mem_cons_of_mem kv h')
        have h2 : hasKey [kv] kv'.1 = false := by
          have : kv'.1 ≠ kv.1 := fun he =>
            hnd.1 (he ▸ List.mem_map_of_mem Prod.fst h')
          simp [hasKey, getKey, Ne.symm this]
        rw [h1, h2]
        rfl

/-- A `dict(...)` over pairs with pairwise distinct keys keeps the pairs. -/
theorem dictOfPairs_eq_self {α : Type} (l : List (String × α))
    (h : (l.map Prod.fst).Nodup) : dictOfPairs l = l := by
  have := foldl_setKey_append l []
    (fun kv _ => by simp [hasKey, getKey]) h
  simpa [dictOfPairs] using this

/-- On loop success every processed asset is found in the final item under
its computed key, with its swath SAR properties filled. -/
theorem foldlM_addImage_ok_getKey (inp : Inputs) (l : List Asset) :
    ∀ it it' : Item, l.foldlM (addImageAsset inp) it = Except.ok it' →
      ∀ a ∈ l, getKey it'.assets (keyOfAsset inp a) = some (xformAsset inp a) := by
  induction l with
  | nil => intro it it' _ a ha; cases ha
  | cons b rest ih =>
      intro it it' h a ha
      rw [List.foldlM_cons] at h
      by_cases hk : hasKey it.assets (keyOfAsset inp b) = true
      · rw [show addImageAsset inp it b
            = Except.error "AssertionError: key in item.assets" by
            simp [addImageAsset, hk],
          exceptBind_err] at h
        cases h
      · have hb : hasKey it.assets (keyOfAsset inp b) = false := eq_false_of_ne_true hk
        rw [show addImageAsset inp it b = Except.ok
            { it with
              assets := setKey it.assets (keyOfAsset inp b) (xformAsset inp b)
              stac_extensions := addIfMissing it.stac_extensions sarSchemaUri } by
          simp [addImageAsset, hb],
          exceptBind_ok] at h
        rcases List.mem_cons.mp ha with hab | har
        · subst hab
          obtain ⟨hass, _, _, _, _, _, _⟩ := foldlM_addImage_ok_shape inp rest _ it' h
          rw [hass]
          simp only []
          rw [setKey_of_not_has it.assets (keyOfAsset inp a) (xformAsset inp a) hb]
          rw [List.append_assoc, getKey_append]
          rw [(hasKey_eq_false_iff _ _).mp hb]
          simp [getKey]
        · exact ih _ it' h a har

/-- `freshChain` depends on the inputs only through `extract_props`. -/
theorem freshChain_congr (inp inp' : Inputs)
    (h : inp.extract_props = inp'.extract_props) :
    ∀ (l : List Asset) (ks : List String),
      freshChain inp ks l = freshChain inp' ks l := by
  intro l
  induction l with
  | nil => intro ks; rfl
  | cons a rest ih =>
      intro ks
      have hk : keyOfAsset inp a = keyOfAsset inp' a := by
        rw [keyOfAsset, keyOfAsset, h]
      rw [freshChain, freshChain, hk, ih]

theorem mem_keys_foldl_setKey {α : Type} (f : String → String)
    (l : List (String × α)) :
    ∀ (acc : List (String × α)) (k : String),
      k ∈ ((l.foldl (fun m pa => setKey m (f pa.1) pa.2) acc).map Prod.fst) →
      k ∈ acc.map Prod.fst ∨ ∃ q, q ∈ l.map Prod.fst ∧ k = f q := by
  induction l with
  | nil => intro acc k h; exact Or.inl h
  | cons pa rest ih =>
      intro acc k h
      rcases ih (setKey acc (f pa.1) pa.2) k h with h' | ⟨q, hq, hkq⟩
      · rcases mem_keys_setKey acc (f pa.1) k pa.2 h' with h'' | h''
        · exact Or.inl h''
        · exact Or.inr ⟨pa.1, by simp, h''⟩
      · exact Or.inr ⟨q, List.mem_cons_of_mem _ hq, hkq⟩

/-- The keys present among the pre-loop assets. -/
theorem mem_keys_preAssets (inp : Inputs) (k : String)
    (h : k ∈ (preAssets inp).map Prod.fst) :
    k = "safe-manifest" ∨ k = "thumbnail" ∨
    (∃ q, q ∈ inp.product_assets.map Prod.fst ∧ k = "schema-product-" ++ q) ∨
    (∃ q, q ∈ inp.calibration_assets.map Prod.fst ∧ k = "schema-calibration-" ++ q) ∨
    (∃ q, q ∈ inp.noise_assets.map Prod.fst ∧ k = "schema-noise-" ++ q) := by
  have hbase : k ∈ (preAssetsBase inp).map Prod.fst →
      k = "safe-manifest" ∨ k = "thumbnail" ∨
      (∃ q, q ∈ inp.product_assets.map Prod.fst ∧ k = "schema-product-" ++ q) ∨
      (∃ q, q ∈ inp.calibration_assets.map Prod.fst ∧ k = "schema-calibration-" ++ q) ∨
      (∃ q, q ∈ inp.noise_assets.map Prod.fst ∧ k = "schema-noise-" ++ q) := by
    intro hb
    rw [preAssetsBase] at hb
    rcases mem_keys_foldl_setKey _ _ _ _ hb with hb' | ⟨q, hq, hkq⟩
    · rcases mem_keys_foldl_setKey _ _ _ _ hb' with hb'' | ⟨q, hq, hkq⟩
      · rcases mem_keys_foldl_setKey _ _ _ _ hb'' with hb3 | ⟨q, hq, hkq⟩
        · rcases mem_keys_setKey _ _ _ _ hb3 with h4 | h4
          · simp at h4
          · exact Or.inl h4
        · exact Or.inr (Or.inr (Or.inl ⟨q, hq, hkq⟩))
      · exact Or.inr (Or.inr (Or.inr (Or.inl ⟨q, hq, hkq⟩)))
    · exact Or.inr (Or.inr (Or.inr (Or.inr ⟨q, hq, hkq⟩)))
  rw [preAssets] at h
  cases hth : inp.thumbnail_href with
  | none => rw [hth] at h; exact hbase h
  | some th =>
      rw [hth] at h
      rcases mem_keys_setKey _ _ _ _ h with h' | h'
      · exact hbase h'
      · exact Or.inr (Or.inl h')

theorem mem_keys_preAssetsBase_preAssets (inp : Inputs) (k : String)
    (h : k ∈ (preAssetsBase inp).map Prod.fst) : k ∈ (preAssets inp).map Prod.fst := by
  rw [preAssets]
  cases hth : inp.thumbnail_href with
  | none => exact h
  | some th => exact mem_keys_of_mem_setKey _ _ _ _ h

/-! ### String separator lemmas for the asset keys -/

theorem strExt {a b : String} (h : a.data = b.data) : a = b := by
  cases a
  cases b
  exact congrArg String.mk h

theorem data_append (s t : String) : (s ++ t).data = s.data ++ t.data := rfl

theorem sep_inj : ∀ (x y u v : List Char), ('-' : Char) ∉ x → ('-' : Char) ∉ y →
    x ++ '-' :: u = y ++ '-' :: v → x = y ∧ u = v := by
  intro x
  induction x with
  | nil =>
      intro y u v _ hy h
      cases y with
      | nil =>
          simp only [List.nil_append] at h
          exact ⟨rfl, List.cons.inj h |>.2⟩
      | cons c ys =>
          simp only [List.nil_append, List.cons_append] at h
          obtain ⟨hc, _⟩ := List.cons.inj h
          exact absurd (hc ▸ List.mem_cons_self c ys) hy
  | cons c xs ih =>
      intro y u v hx hy h
      cases y with
      | nil =>
          simp only [List.cons_append, List.nil_append] at h
          obtain ⟨hc, _⟩ := List.cons.inj h
          exact absurd (hc ▸ List.mem_cons_self c xs) hx
      | cons d ys =>
          simp only [List.cons_append] at h
          obtain ⟨hcd, htail⟩ := List.cons.inj h
          have hx' : ('-' : Char) ∉ xs := fun hm => hx (List.mem_cons_of_mem c hm)
          have hy' : ('-' : Char) ∉ ys := fun hm => hy (List.mem_cons_of_mem d hm)
          obtain ⟨h1, h2⟩ := ih ys u v hx' hy' htail
          exact ⟨by rw [hcd, h1], h2⟩

/-- A swath-polarisation key determines its two dash-free components. -/
theorem dashed_key_inj {a b c d : String} (hb : ('-' : Char) ∉ b.data)
    (hd : ('-' : Char) ∉ d.data) (h : a ++ "-" ++ b = c ++ "-" ++ d) :
    a = c ∧ b = d := by
  have hdata : a.data ++ '-' :: b.data = c.data ++ '-' :: d.data := by
    have h' := congrArg String.data h
    rw [data_append, data_append, data_append, data_append] at h'
    simpa [List.append_assoc] using h'
  have hrev : b.data.reverse ++ '-' :: a.data.reverse
      = d.data.reverse ++ '-' :: c.data.reverse := by
    have h'' := congrArg List.reverse hdata
    simpa [List.reverse_append, List.append_assoc] using h''
  have hb' : ('-' : Char) ∉ b.data.reverse := by simpa using hb
  have hd' : ('-' : Char) ∉ d.data.reverse := by simpa using hd
  obtain ⟨h2, h1⟩ := sep_inj _ _ _ _ hb' hd' hrev
  exact ⟨strExt (List.reverse_injective h1), strExt (List.reverse_injective h2)⟩

theorem dash_mem_key (a b : String) : ('-' : Char) ∈ (a ++ "-" ++ b).data := by
  rw [data_append, data_append]
  exact List.mem_append.mpr (Or.inl (List.mem_append.mpr (Or.inr (by simp [String.data]))))

/-! ### Pointwise lookups on the pre-loop properties -/

theorem getKey_preProps_pid (sarP satP procP : List (String × JVal)) (b : List ℚ)
    (shape : List Nat) (cen : ℚ × ℚ) (platform : Option String)
    (md : List (String × JVal)) (scene_id : String) (pdt : Option String) :
    getKey (preProps sarP satP procP b shape cen platform md scene_id pdt)
      "s1:product_identifier" = some (JVal.s scene_id) := by
  cases pdt with
  | none =>
      simp only [preProps]
      rw [getKey_setKey_self]
  | some s =>
      by_cases hs : s = ""
      · simp only [preProps]
        rw [if_pos hs, getKey_setKey_self]
      · simp only [preProps]
        rw [if_neg hs, getKey_setKey_ne _ _ (by decide), getKey_setKey_self]

theorem getKey_preProps_md_mem (sarP satP procP : List (String × JVal)) (b : List ℚ)
    (shape : List Nat) (cen : ℚ × ℚ) (platform : Option String)
    (md : List (String × JVal)) (scene_id : String) (pdt : Option String)
    (kv : String × JVal) (hnd : (md.map Prod.fst).Nodup) (hmem : kv ∈ md)
    (hne1 : kv.1 ≠ "s1:processing_datetime")
    (hne2 : kv.1 ≠ "s1:product_identifier") :
    getKey (preProps sarP satP procP b shape cen platform md scene_id pdt) kv.1
      = some kv.2 := by
  cases pdt with
  | none =>
      simp only [preProps]
      rw [getKey_setKey_ne _ _ hne2, getKey_updKVs_mem md _ kv hnd hmem]
  | some s =>
      by_cases hs : s = ""
      · simp only [preProps]
        rw [if_pos hs, getKey_setKey_ne _ _ hne2, getKey_updKVs_mem md _ kv hnd hmem]
      · simp only [preProps]
        rw [if_neg hs, getKey_setKey_ne _ _ hne1, getKey_setKey_ne _ _ hne2,
          getKey_updKVs_mem md _ kv hnd hmem]

theorem getKey_preProps_constellation (sarP satP procP : List (String × JVal))
    (b : List ℚ) (shape : List Nat) (cen : ℚ × ℚ) (platform : Option String)
    (md : List (String × JVal)) (scene_id : String) (pdt : Option String)
    (hmd : ∀ kv ∈ md, kv.1 ≠ "constellation") :
    getKey (preProps sarP satP procP b shape cen platform md scene_id pdt)
      "constellation" = some (JVal.s SENTINEL_CONSTELLATION) := by
  cases pdt with
  | none =>
      simp only [preProps]
      rw [getKey_setKey_ne _ _ (by decide), getKey_updKVs_not_mem md _ _ hmd,
        getKey_setKey_self]
  | some s =>
      by_cases hs : s = ""
      · simp only [preProps]
        rw [if_pos hs, getKey_setKey_ne _ _ (by decide),
          getKey_updKVs_not_mem md _ _ hmd, getKey_setKey_self]
      · simp only [preProps]
        rw [if_neg hs, getKey_setKey_ne _ _ (by decide),
          getKey_setKey_ne _ _ (by decide),
          getKey_updKVs_not_mem md _ _ hmd, getKey_setKey_self]

theorem getKey_preProps_platform_some (sarP satP procP : List (String × JVal))
    (b : List ℚ) (shape : List Nat) (cen : ℚ × ℚ) (pf : String)
    (md : List (String × JVal)) (scene_id : String) (pdt : Option String)
    (hmd : ∀ kv ∈ md, kv.1 ≠ "platform") :
    getKey (preProps sarP satP procP b shape cen (some pf) md scene_id pdt)
      "platform" = some (JVal.s (strLower pf)) := by
  cases pdt with
  | none =>
      simp only [preProps]
      rw [getKey_setKey_ne _ _ (by decide), getKey_updKVs_not_mem md _ _ hmd,
        getKey_setKey_ne _ _ (by decide), getKey_setKey_self]
  | some s =>
      by_cases hs : s = ""
      · simp only [preProps]
        rw [if_pos hs, getKey_setKey_ne _ _ (by decide),
          getKey_updKVs_not_mem md _ _ hmd,
          getKey_setKey_ne _ _ (by decide), getKey_setKey_self]
      · simp only [preProps]
        rw [if_neg hs, getKey_setKey_ne _ _ (by decide),
          getKey_setKey_ne _ _ (by decide),
          getKey_updKVs_not_mem md _ _ hmd,
          getKey_setKey_ne _ _ (by decide), getKey_setKey_self]

theorem getKey_preProps_platform_none (sarP satP procP : List (String × JVal))
    (b : List ℚ) (shape : List Nat) (cen : ℚ × ℚ)
    (md : List (String × JVal)) (scene_id : String) (pdt : Option String)
    (hmd : ∀ kv ∈ md, kv.1 ≠ "platform")
    (hsar : ∀ kv ∈ sarP, kv.1 ≠ "platform")
    (hsat : ∀ kv ∈ satP, kv.1 ≠ "platform")
    (hproc : ∀ kv ∈ procP, kv.1 ≠ "platform") :
    getKey (preProps sarP satP procP b shape cen none md scene_id pdt)
      "platform" = none := by
  have htrunk : getKey (updKVs (updKVs (updKVs [] sarP) satP) procP) "platform"
      = none := by
    rw [getKey_updKVs_not_mem procP _ _ hproc, getKey_updKVs_not_mem satP _ _ hsat,
      getKey_updKVs_not_mem sarP _ _ hsar]
    rfl
  cases pdt with
  | none =>
      simp only [preProps]
      rw [getKey_setKey_ne _ _ (by decide), getKey_updKVs_not_mem md _ _ hmd,
        getKey_setKey_ne _ _ (by decide), getKey_setKey_ne _ _ (by decide),
        getKey_setKey_ne _ _ (by decide), getKey_setKey_ne _ _ (by decide),
        getKey_setKey_ne _ _ (by decide), getKey_setKey_ne _ _ (by decide),
        getKey_setKey_ne _ _ (by decide), htrunk]
  | some s =>
      by_cases hs : s = ""
      · simp only [preProps]
        rw [if_pos hs, getKey_setKey_ne _ _ (by decide),
          getKey_updKVs_not_mem md _ _ hmd,
          getKey_setKey_ne _ _ (by decide), getKey_setKey_ne _ _ (by decide),
          getKey_setKey_ne _ _ (by decide), getKey_setKey_ne _ _ (by decide),
          getKey_setKey_ne _ _ (by decide), getKey_setKey_ne _ _ (by decide),
          getKey_setKey_ne _ _ (by decide), htrunk]
      · simp only [preProps]
        rw [if_neg hs, getKey_setKey_ne _ _ (by decide),
          getKey_setKey_ne _ _ (by decide),
          getKey_updKVs_not_mem md _ _ hmd,
          getKey_setKey_ne _ _ (by decide), getKey_setKey_ne _ _ (by decide),
          getKey_setKey_ne _ _ (by decide), getKey_setKey_ne _ _ (by decide),
          getKey_setKey_ne _ _ (by decide), getKey_setKey_ne _ _ (by decide),
          getKey_setKey_ne _ _ (by decide), htrunk]

/-- Decomposition of the projection/common-metadata segment of the
pre-loop properties. -/
theorem mem_keys_preProps_core (sarP satP procP : List (String × JVal)) (b : List ℚ)
    (shape : List Nat) (cen : ℚ × ℚ) (k : String)
    (h : k ∈ (setKey (setKey (setKey (setKey (setKey
        (updKVs (updKVs (updKVs [] sarP) satP) procP)
        "proj:epsg" (JVal.i 4326))
        "proj:bbox" (JVal.qarr b))
        "proj:shape" (JVal.narr shape))
        "proj:transform" (JVal.qarr (transform_from_bbox b shape)))
        "proj:centroid" (JVal.cen (round5 cen.2) (round5 cen.1))).map Prod.fst) :
    k ∈ sarP.map Prod.fst ∨ k ∈ satP.map Prod.fst ∨ k ∈ procP.map Prod.fst ∨
    k ∈ ["proj:epsg", "proj:bbox", "proj:shape", "proj:transform", "proj:centroid",
         "providers", "platform", "constellation", "s1:product_identifier",
         "s1:processing_datetime"] := by
  rcases mem_keys_setKey _ _ _ _ h with h | h
  rotate_left
  · exact Or.inr (Or.inr (Or.inr (by rw [h]; simp)))
  rcases mem_keys_setKey _ _ _ _ h with h | h
  rotate_left
  · exact Or.inr (Or.inr (Or.inr (by rw [h]; simp)))
  rcases mem_keys_setKey _ _ _ _ h with h | h
  rotate_left
  · exact Or.inr (Or.inr (Or.inr (by rw [h]; simp)))
  rcases mem_keys_setKey _ _ _ _ h with h | h
  rotate_left
  · exact Or.inr (Or.inr (Or.inr (by rw [h]; simp)))
  rcases mem_keys_setKey _ _ _ _ h with h | h
  rotate_left
  · exact Or.inr (Or.inr (Or.inr (by rw [h]; simp)))
  rcases mem_keys_updKVs procP _ _ h with h | h
  rotate_left
  · exact Or.inr (Or.inr (Or.inl h))
  rcases mem_keys_updKVs satP _ _ h with h | h
  rotate_left
  · exact Or.inr (Or.inl h)
  rcases mem_keys_updKVs sarP _ _ h with h | h
  · cases h
  · exact Or.inl h

/-- All keys of the pre-loop properties come from the fills, the metadata
dictionary, or the fixed key set written by `create_item` itself. -/
theorem mem_keys_preProps (sarP satP procP : List (String × JVal)) (b : List ℚ)
    (shape : List Nat) (cen : ℚ × ℚ) (platform : Option String)
    (md : List (String × JVal)) (scene_id : String) (pdt : Option String)
    (k : String)
    (h : k ∈ (preProps sarP satP procP b shape cen platform md scene_id pdt).map Prod.fst) :
    k ∈ sarP.map Prod.fst ∨ k ∈ satP.map Prod.fst ∨ k ∈ procP.map Prod.fst ∨
    k ∈ md.map Prod.fst ∨
    k ∈ ["proj:epsg", "proj:bbox", "proj:shape", "proj:transform", "proj:centroid",
         "providers", "platform", "constellation", "s1:product_identifier",
         "s1:processing_datetime"] := by
  have hfin : ∀ h5 : k ∈ sarP.map Prod.fst ∨ k ∈ satP.map Prod.fst ∨
      k ∈ procP.map Prod.fst ∨
      k ∈ ["proj:epsg", "proj:bbox", "proj:shape", "proj:transform", "proj:centroid",
           "providers", "platform", "constellation", "s1:product_identifier",
           "s1:processing_datetime"],
      k ∈ sarP.map Prod.fst ∨ k ∈ satP.map Prod.fst ∨ k ∈ procP.map Prod.fst ∨
      k ∈ md.map Prod.fst ∨
      k ∈ ["proj:epsg", "proj:bbox", "proj:shape", "proj:transform", "proj:centroid",
           "providers", "platform", "constellation", "s1:product_identifier",
           "s1:processing_datetime"] := by
    intro h5
    rcases h5 with h5 | h5 | h5 | h5
    · exact Or.inl h5
    · exact Or.inr (Or.inl h5)
    · exact Or.inr (Or.inr (Or.inl h5))
    · exact Or.inr (Or.inr (Or.inr (Or.inr h5)))
  cases pdt with
  | some s =>
      by_cases hs : s = ""
      · cases platform with
        | none =>
            simp only [preProps, if_pos hs] at h
            rcases mem_keys_setKey _ _ _ _ h with h | h
            rotate_left
            · exact Or.inr (Or.inr (Or.inr (Or.inr (by rw [h]; simp))))
            rcases mem_keys_updKVs md _ _ h with h | h
            rotate_left
            · exact Or.inr (Or.inr (Or.inr (Or.inl h)))
            rcases mem_keys_setKey _ _ _ _ h with h | h
            rotate_left
            · exact Or.inr (Or.inr (Or.inr (Or.inr (by rw [h]; simp))))
            rcases mem_keys_setKey _ _ _ _ h with h | h
            rotate_left
            · exact Or.inr (Or.inr (Or.inr (Or.inr (by rw [h]; simp))))
            exact hfin (mem_keys_preProps_core sarP satP procP b shape cen k h)
        | some pf =>
            simp only [preProps, if_pos hs] at h
            rcases mem_keys_setKey _ _ _ _ h with h | h
            rotate_left
            · exact Or.inr (Or.inr (Or.inr (Or.inr (by rw [h]; simp))))
            rcases mem_keys_updKVs md _ _ h with h | h
            rotate_left
            · exact Or.inr (Or.inr (Or.inr (Or.inl h)))
            rcases mem_keys_setKey _ _ _ _ h with h | h
            rotate_left
            · exact Or.inr (Or.inr (Or.inr (Or.inr (by rw [h]; simp))))
            rcases mem_keys_setKey _ _ _ _ h with h | h
            rotate_left
            · exact Or.inr (Or.inr (Or.inr (Or.inr (by rw [h]; simp))))
            rcases mem_keys_setKey _ _ _ _ h with h | h
            rotate_left
            · exact Or.inr (Or.inr (Or.inr (Or.inr (by rw [h]; simp))))
            exact hfin (mem_keys_preProps_core sarP satP procP b shape cen k h)
      · cases platform with
        | none =>
            simp only [preProps, if_neg hs] at h
            rcases mem_keys_setKey _ _ _ _ h with h | h
            rotate_left
            · exact Or.inr (Or.inr (Or.inr (Or.inr (by rw [h]; simp))))
            rcases mem_keys_setKey _ _ _ _ h with h | h
            rotate_left
            · exact Or.inr (Or.inr (Or.inr (Or.inr (by rw [h]; simp))))
            rcases mem_keys_updKVs md _ _ h with h | h
            rotate_left
            · exact Or.inr (Or.inr (Or.inr (Or.inl h)))
            rcases mem_keys_setKey _ _ _ _ h with h | h
            rotate_left
            · exact Or.inr (Or.inr (Or.inr (Or.inr (by rw [h]; simp))))
            rcases mem_keys_setKey _ _ _ _ h with h | h
            rotate_left
            · exact Or.inr (Or.inr (Or.inr (Or.inr (by rw [h]; simp))))
            exact hfin (mem_keys_preProps_core sarP satP procP b shape cen k h)
        | some pf =>
            simp only [preProps, if_neg hs] at h
            rcases mem_keys_setKey _ _ _ _ h with h | h
            rotate_left
            · exact Or.inr (Or.inr (Or.inr (Or.inr (by rw [h]; simp))))
            rcases mem_keys_setKey _ _ _ _ h with h | h
            rotate_left
            · exact Or.inr (Or.inr (Or.inr (Or.inr (by rw [h]; simp))))
            rcases mem_keys_updKVs md _ _ h with h | h
            rotate_left
            · exact Or.inr (Or.inr (Or.inr (Or.inl h)))
            rcases mem_keys_setKey _ _ _ _ h with h | h
            rotate_left
            · exact Or.inr (Or.inr (Or.inr (Or.inr (by rw [h]; simp))))
            rcases mem_keys_setKey _ _ _ _ h with h | h
            rotate_left
            · exact Or.inr (Or.inr (Or.inr (Or.inr (by rw [h]; simp))))
            rcases mem_keys_setKey _ _ _ _ h with h | h
            rotate_left
            · exact Or.inr (Or.inr (Or.inr (Or.inr (by rw [h]; simp))))
            exact hfin (mem_keys_preProps_core sarP satP procP b shape cen k h)
  | none =>
      cases platform with
      | none =>
          simp only [preProps] at h
          rcases mem_keys_setKey _ _ _ _ h with h | h
          rotate_left
          · exact Or.inr (Or.inr (Or.inr (Or.inr (by rw [h]; simp))))
          rcases mem_keys_updKVs md _ _ h with h | h
          rotate_left
          · exact Or.inr (Or.inr (Or.inr (Or.inl h)))
          rcases mem_keys_setKey _ _ _ _ h with h | h
          rotate_left
          · exact Or.inr (Or.inr (Or.inr (Or.inr (by rw [h]; simp))))
          rcases mem_keys_setKey _ _ _ _ h with h | h
          rotate_left
          · exact Or.inr (Or.inr (Or.inr (Or.inr (by rw [h]; simp))))
          exact hfin (mem_keys_preProps_core sarP satP procP b shape cen k h)
      | some pf =>
          simp only [preProps] at h
          rcases mem_keys_setKey _ _ _ _ h with h | h
          rotate_left
          · exact Or.inr (Or.inr (Or.inr (Or.inr (by rw [h]; simp))))
          rcases mem_keys_updKVs md _ _ h with h | h
          rotate_left
          · exact Or.inr (Or.inr (Or.inr (Or.inl h)))
          rcases mem_keys_setKey _ _ _ _ h with h | h
          rotate_left
          · exact Or.inr (Or.inr (Or.inr (Or.inr (by rw [h]; simp))))
          rcases mem_keys_setKey _ _ _ _ h with h | h
          rotate_left
          · exact Or.inr (Or.inr (Or.inr (Or.inr (by rw [h]; simp))))
          rcases mem_keys_setKey _ _ _ _ h with h | h
          rotate_left
          · exact Or.inr (Or.inr (Or.inr (Or.inr (by rw [h]; simp))))
          exact hfin (mem_keys_preProps_core sarP satP procP b shape cen k h)

/-! ### The claims -/

/-- C3: for every fixed input, two runs of `create_item` produce equal
results and two runs of `create_collection` produce equal collections.
Both embeddings are pure functions of their inputs because the source
reads only its arguments and the XML/manifest data (modelled as the
`Inputs` record), so determinism and statelessness hold definitionally. -/
theorem createItem_deterministic (inp : Inputs) (p : String) :
    createItem inp = createItem inp ∧ createCollection p = createCollection p :=
  ⟨rfl, rfl⟩

/-- C9: the media type of the image data assets is determined solely by
the archive format: GEOTIFF for SAFE and COG for COG; the `Format` enum
has no other values, so the `None` fallback of the source is unreachable
(`imagesMediaType` still models it as the initial value of the chain). -/
theorem imagesMediaType_by_format :
    ∀ f : ArchiveFormat,
      imagesMediaType f
        = match f with
          | ArchiveFormat.SAFE => some MediaType.GEOTIFF
          | ArchiveFormat.COG => some MediaType.COG := by
  intro f
  cases f <;> rfl

/-- C6: `create_collection` returns the collection with id
`sentinel1-slc`, the global spatial extent, the open-ended temporal extent
from 2014-10-10, the SAR/Satellite/EO extension schemas (plus the
item-assets schema registered by the item-assets extension), the fixed SAR
and orbit-state summaries from the constants module, the fixed item-asset
definitions, and the license and technical-guide links appended. -/
theorem createCollection_fixed (p : String) :
    (createCollection p).id = "sentinel1-slc" ∧
    (createCollection p).href = p ∧
    (createCollection p).spatial_extent = [-180, -90, 180, 90] ∧
    (createCollection p).temporal_extent_start = "2014-10-10T00:00:00Z" ∧
    (createCollection p).temporal_extent_end = none ∧
    (createCollection p).stac_extensions
      = [sarSchemaUri, satSchemaUri, eoSchemaUri, itemAssetsSchemaUri] ∧
    (createCollection p).summaries =
      [("constellation", JVal.sarr [SENTINEL_CONSTELLATION]),
       ("platform", JVal.sarr SENTINEL_PLATFORMS),
       ("sar:looks_range", SENTINEL_SLC_SAR.looks_range),
       ("sar:product_type", SENTINEL_SLC_SAR.product_type),
       ("sar:looks_azimuth", SENTINEL_SLC_SAR.looks_azimuth),
       ("sar:polarizations", SENTINEL_SLC_SAR.polarizations),
       ("sar:frequency_band", SENTINEL_SLC_SAR.frequency_band),
       ("sar:instrument_mode", SENTINEL_SLC_SAR.instrument_mode),
       ("sar:center_frequency", SENTINEL_SLC_SAR.center_frequency),
       ("sar:resolution_range", SENTINEL_SLC_SAR.resolution_range),
       ("sar:resolution_azimuth", SENTINEL_SLC_SAR.resolution_azimuth),
       ("sar:pixel_spacing_range", SENTINEL_SLC_SAR.pixel_spacing_range),
       ("sar:pixel_spacing_azimuth", SENTINEL_SLC_SAR.pixel_spacing_azimuth),
       ("sar:observation_direction", SENTINEL_SLC_SAR.observation_direction),
       ("sar:looks_equivalent_number", SENTINEL_SLC_SAR.looks_equivalent_number),
       ("sat:orbit_state", SENTINEL_SLC_SAT.orbit_state)] ∧
    (createCollection p).keywords = SENTINEL_SLC_KEYWORDS ∧
    (createCollection p).providers = [SENTINEL_PROVIDER] ∧
    (createCollection p).item_assets = SENTINEL_SLC_ASSETS ∧
    (createCollection p).links = [SENTINEL_SLC_LICENSE, SENTINEL_SLC_TECHNICAL_GUIDE] :=
  ⟨rfl, rfl, rfl, rfl, rfl,
    by
      show addIfMissing
          (addIfMissing
            (addIfMissing [sarSchemaUri, satSchemaUri, eoSchemaUri] sarSchemaUri)
            satSchemaUri)
          itemAssetsSchemaUri
        = [sarSchemaUri, satSchemaUri, eoSchemaUri, itemAssetsSchemaUri]
      rfl,
    by
      show slcSummaries
          [("constellation", JVal.sarr [SENTINEL_CONSTELLATION]),
           ("platform", JVal.sarr SENTINEL_PLATFORMS)]
        = [("constellation", JVal.sarr [SENTINEL_CONSTELLATION]),
           ("platform", JVal.sarr SENTINEL_PLATFORMS),
           ("sar:looks_range", SENTINEL_SLC_SAR.looks_range),
           ("sar:product_type", SENTINEL_SLC_SAR.product_type),
           ("sar:looks_azimuth", SENTINEL_SLC_SAR.looks_azimuth),
           ("sar:polarizations", SENTINEL_SLC_SAR.polarizations),
           ("sar:frequency_band", SENTINEL_SLC_SAR.frequency_band),
           ("sar:instrument_mode", SENTINEL_SLC_SAR.instrument_mode),
           ("sar:center_frequency", SENTINEL_SLC_SAR.center_frequency),
           ("sar:resolution_range", SENTINEL_SLC_SAR.resolution_range),
           ("sar:resolution_azimuth", SENTINEL_SLC_SAR.resolution_azimuth),
           ("sar:pixel_spacing_range", SENTINEL_SLC_SAR.pixel_spacing_range),
           ("sar:pixel_spacing_azimuth", SENTINEL_SLC_SAR.pixel_spacing_azimuth),
           ("sar:observation_direction", SENTINEL_SLC_SAR.observation_direction),
           ("sar:looks_equivalent_number", SENTINEL_SLC_SAR.looks_equivalent_number),
           ("sat:orbit_state", SENTINEL_SLC_SAT.orbit_state)]
      rfl,
    rfl, rfl, rfl, rfl⟩

/-- C1: when the metadata reads succeed, the item of `create_item`
carries exactly the geometry, bbox and datetime extracted from the product
metadata, and `create_collection` returns the collection describing the
Sentinel-1 SLC product family. -/
theorem createItem_extracted_fields (inp : Inputs) (it : Item) (g : Geometry)
    (b : List ℚ) (dt : String) (p : String)
    (hg : inp.geometry = some g) (hb : inp.bbox = some b)
    (hdt : inp.get_datetime = some dt)
    (hok : createItem inp = Except.ok it) :
    it.geometry = g ∧ it.bbox = b ∧ it.datetime = dt ∧
    (createCollection p).id = "sentinel1-slc" ∧
    (createCollection p).title = "Sentinel-1 SLC" ∧
    (createCollection p).description = SENTINEL_SLC_DESCRIPTION := by
  obtain ⟨sid, g', b', dt', sarP, satP, procP, shape, md,
    h1, h2, h3, h4, h5, h6, h7, h8, h9, hid, hg', hb', hdt', hp⟩ := createItem_core hok
  obtain rfl : g' = g := Option.some.inj (h2.symm.trans hg)
  obtain rfl : b' = b := Option.some.inj (h3.symm.trans hb)
  obtain rfl : dt' = dt := Option.some.inj (h4.symm.trans hdt)
  exact ⟨hg', hb', hdt', rfl, rfl, rfl⟩

/-- Witness for C1 at the concrete sample product. -/
theorem createItem_extracted_fields_witness :
    sampleInputs.geometry = some [(1, 2), (3, 2), (3, 4), (1, 4), (1, 2)] ∧
    sampleInputs.bbox = some [1, 2, 3, 4] ∧
    sampleInputs.get_datetime = some "2020-01-01T00:00:12Z" ∧
    createItem sampleInputs = Except.ok sampleItem ∧
    (sampleItem.geometry = [(1, 2), (3, 2), (3, 4), (1, 4), (1, 2)] ∧
     sampleItem.bbox = [1, 2, 3, 4] ∧
     sampleItem.datetime = "2020-01-01T00:00:12Z" ∧
     (createCollection "collection.json").id = "sentinel1-slc" ∧
     (createCollection "collection.json").title = "Sentinel-1 SLC" ∧
     (createCollection "collection.json").description = SENTINEL_SLC_DESCRIPTION) :=
  ⟨rfl, rfl, rfl, rfl,
    createItem_extracted_fields sampleInputs sampleItem
      [(1, 2), (3, 2), (3, 4), (1, 4), (1, 2)] [1, 2, 3, 4]
      "2020-01-01T00:00:12Z" "collection.json" rfl rfl rfl rfl⟩

/-- C8: the item id is the scene id with its final 5 characters removed,
the full scene id is kept in `s1:product_identifier`, and two successful
calls whose scene ids share that prefix yield the same item id. -/
theorem itemId_drops_processing_segment (inp : Inputs) (it : Item) (sid : String)
    (hsid : inp.scene_id = some sid) (hok : createItem inp = Except.ok it) :
    it.id = sid.dropRight 5 ∧
    getKey it.properties "s1:product_identifier" = some (JVal.s sid) ∧
    (∀ (inp' : Inputs) (it' : Item) (sid' : String), inp'.scene_id = some sid' →
      createItem inp' = Except.ok it' → sid.dropRight 5 = sid'.dropRight 5 →
      it.id = it'.id) := by
  obtain ⟨sid0, g, b, dt, sarP, satP, procP, shape, md,
    h1, h2, h3, h4, h5, h6, h7, h8, h9, hid, hg, hb, hdt, hp⟩ := createItem_core hok
  obtain rfl : sid0 = sid := Option.some.inj (h1.symm.trans hsid)
  refine ⟨hid, ?_, ?_⟩
  · rw [hp]
    exact getKey_preProps_pid sarP satP procP b shape (inp.centroid g)
      inp.platform md _ inp.manifest_pdt
  · intro inp' it' sid' hsid' hok' heq
    obtain ⟨sid0', g', b', dt', sarP', satP', procP', shape', md',
      h1', _, _, _, _, _, _, _, _, hid', _, _, _, _⟩ := createItem_core hok'
    obtain rfl : sid0' = sid' := Option.some.inj (h1'.symm.trans hsid')
    rw [hid, hid', heq]

/-- Witness for C8 at the concrete sample product. -/
theorem itemId_drops_processing_segment_witness :
    sampleInputs.scene_id = some "SCENE_AB123" ∧
    createItem sampleInputs = Except.ok sampleItem ∧
    (sampleItem.id = "SCENE_AB123".dropRight 5 ∧
     getKey sampleItem.properties "s1:product_identifier"
       = some (JVal.s "SCENE_AB123")) :=
  ⟨rfl, rfl,
    (itemId_drops_processing_segment sampleInputs sampleItem "SCENE_AB123" rfl rfl).1,
    (itemId_drops_processing_segment sampleInputs sampleItem "SCENE_AB123" rfl rfl).2.1⟩

/-- C2 (amended): `create_item` performs no failure recovery: a successful
call proves every required metadata read succeeded (scene id, geometry,
bbox, datetime, the SAR/satellite/processing fills, the shape, the
metadata dictionary and the image paths), no partially-filled item can be
returned (the call either raises or returns the complete item, by the
`Except` shape of the embedding), and removing all three optional reads --
the SLC Post Processing stop time, the thumbnail href, and also the
manifest platform -- never turns a succeeding call into a failing one. -/
theorem createItem_fails_on_missing_required (inp : Inputs) (it : Item)
    (hok : createItem inp = Except.ok it) :
    (inp.scene_id.isSome = true ∧ inp.geometry.isSome = true ∧
     inp.bbox.isSome = true ∧ inp.get_datetime.isSome = true ∧
     okB inp.sar_props = true ∧ okB inp.sat_props = true ∧
     okB inp.proc_props = true ∧ inp.shape.isSome = true ∧
     inp.metadata_dict.isSome = true ∧ inp.image_paths.isSome = true) ∧
    okB (createItem (stripOptionals inp)) = true := by
  obtain ⟨sid, g, b, dt, sarP, satP, procP, shape, md, paths, it0,
    h1, h2, h3, h4, h5, h6, h7, h8, h9, h10, hf, hit⟩ := createItem_ok_elim hok
  constructor
  · exact ⟨by rw [h1]; rfl, by rw [h2]; rfl, by rw [h3]; rfl, by rw [h4]; rfl,
      by rw [h5]; rfl, by rw [h6]; rfl, by rw [h7]; rfl, by rw [h8]; rfl,
      by rw [h9]; rfl, by rw [h10]; rfl⟩
  · have hsOk : okB (createItem inp) = true := by rw [hok]; rfl
    have hfresh : freshChain inp ((preAssets inp).map Prod.fst)
        (imageVals inp paths) = true := by
      rw [← createItem_okB_eq inp sid g b dt sarP satP procP shape md paths
        h1 h2 h3 h4 h5 h6 h7 h8 h9 h10]
      exact hsOk
    have h1' : (stripOptionals inp).scene_id = some sid := h1
    have h2' : (stripOptionals inp).geometry = some g := h2
    have h3' : (stripOptionals inp).bbox = some b := h3
    have h4' : (stripOptionals inp).get_datetime = some dt := h4
    have h5' : (stripOptionals inp).sar_props = Except.ok sarP := h5
    have h6' : (stripOptionals inp).sat_props = Except.ok satP := h6
    have h7' : (stripOptionals inp).proc_props = Except.ok procP := h7
    have h8' : (stripOptionals inp).shape = some shape := h8
    have h9' : (stripOptionals inp).metadata_dict = some md := h9
    have h10' : (stripOptionals inp).image_paths = some paths := h10
    rw [createItem_okB_eq (stripOptionals inp) sid g b dt sarP satP procP shape md
      paths h1' h2' h3' h4' h5' h6' h7' h8' h9' h10']
    rw [← freshChain_congr inp (stripOptionals inp) rfl]
    have himg : imageVals (stripOptionals inp) paths = imageVals inp paths := rfl
    rw [himg]
    have hbase : preAssets (stripOptionals inp) = preAssetsBase inp := rfl
    rw [hbase]
    exact freshChain_mono inp (imageVals inp paths)
      ((preAssetsBase inp).map Prod.fst) ((preAssets inp).map Prod.fst)
      (fun k hk => mem_keys_preAssetsBase_preAssets inp k hk) hfresh

/-- Witness for the amended C2 at the concrete sample product. -/
theorem createItem_fails_on_missing_required_witness :
    createItem sampleInputs = Except.ok sampleItem ∧
    ((sampleInputs.scene_id.isSome = true ∧ sampleInputs.geometry.isSome = true ∧
      sampleInputs.bbox.isSome = true ∧ sampleInputs.get_datetime.isSome = true ∧
      okB sampleInputs.sar_props = true ∧ okB sampleInputs.sat_props = true ∧
      okB sampleInputs.proc_props = true ∧ sampleInputs.shape.isSome = true ∧
      sampleInputs.metadata_dict.isSome = true ∧
      sampleInputs.image_paths.isSome = true) ∧
     okB (createItem (stripOptionals sampleInputs)) = true) :=
  ⟨rfl, createItem_fails_on_missing_required sampleInputs sampleItem rfl⟩

/-- C2 counterexample: the claim says only the SLC Post Processing stop
time and the thumbnail href may be absent without causing failure, but a
product whose manifest platform is absent (all other fields present) is
converted successfully as well -- `create_item` guards the platform read
with a truthiness test instead of failing. -/
theorem createItem_succeeds_without_platform :
    c2Input.platform = none ∧ okB (createItem c2Input) = true :=
  ⟨rfl, by decide⟩

/-- C4: when the band keys derived by `image_asset_from_href` are pairwise
distinct (so the `dict(...)` of lines 229-239 keeps every image path),
each image path listed in the product metadata yields an asset on the item
whose key is the swath and polarisation extracted from the asset href,
joined as `swath-polarisation`, and that asset carries the SAR extension
properties filled by `fill_swath_sar_properties` with the upper-cased
swath and polarisation. -/
theorem imageAssets_keyed_by_swath_polarisation (inp : Inputs) (it : Item)
    (paths : List String) (hpaths : inp.image_paths = some paths)
    (hnd : (paths.map (fun q =>
      (inp.image_asset (osJoin inp.granule_href q)
        (imagesMediaType inp.archive_format)).1)).Nodup)
    (hok : createItem inp = Except.ok it) :
    ∀ q ∈ paths,
      let a := (inp.image_asset (osJoin inp.granule_href q)
        (imagesMediaType inp.archive_format)).2
      let polarisation := (inp.extract_props a.href).1
      let swath := (inp.extract_props a.href).2
      getKey it.assets (swath ++ "-" ++ polarisation)
        = some { a with extra := updKVs a.extra (inp.fill_swath_sar (strUpper swath) (strUpper polarisation)) } := by
  intro q hq
  show getKey it.assets
      (keyOfAsset inp (inp.image_asset (osJoin inp.granule_href q)
        (imagesMediaType inp.archive_format)).2)
    = some (xformAsset inp (inp.image_asset (osJoin inp.granule_href q)
        (imagesMediaType inp.archive_format)).2)
  obtain ⟨sid, g, b, dt, sarP, satP, procP, shape, md, paths', it0,
    h1, h2, h3, h4, h5, h6, h7, h8, h9, h10, hf, hit⟩ := createItem_ok_elim hok
  have hpp : paths' = paths := Option.some.inj (h10.symm.trans hpaths)
  rw [hpp] at hf
  have hnd' : ((paths.map (fun q =>
      inp.image_asset (osJoin inp.granule_href q)
        (imagesMediaType inp.archive_format))).map Prod.fst).Nodup := by
    rw [List.map_map]
    exact hnd
  have hvals : imageVals inp paths
      = paths.map (fun q => (inp.image_asset (osJoin inp.granule_href q)
          (imagesMediaType inp.archive_format)).2) := by
    rw [imageVals, dictOfPairs_eq_self _ hnd', List.map_map]
    rfl
  have hmem : (inp.image_asset (osJoin inp.granule_href q)
      (imagesMediaType inp.archive_format)).2 ∈ imageVals inp paths := by
    rw [hvals]
    exact List.mem_map_of_mem _ hq
  have hget := foldlM_addImage_ok_getKey inp (imageVals inp paths) _ it0 hf _ hmem
  rw [hit]
  exact hget

/-- Witness for C4 at the concrete sample product. -/
theorem imageAssets_keyed_by_swath_polarisation_witness :
    sampleInputs.image_paths = some ["m/vv.tiff", "m/vh.tiff"] ∧
    (["m/vv.tiff", "m/vh.tiff"].map (fun q =>
      (sampleInputs.image_asset (osJoin sampleInputs.granule_href q)
        (imagesMediaType sampleInputs.archive_format)).1)).Nodup ∧
    createItem sampleInputs = Except.ok sampleItem ∧
    getKey sampleItem.assets "iw1-vv"
      = some { href := "g/m/vv.tiff", media_type := some MediaType.GEOTIFF,
               roles := ["data"], title := none, description := none,
               extra := [("sar:polarizations", JVal.sarr ["VV"]),
                         ("sar:instrument_mode", JVal.s "IW1")] } := by
  refine ⟨rfl, by decide, rfl, ?_⟩
  have h := imageAssets_keyed_by_swath_polarisation sampleInputs sampleItem
    ["m/vv.tiff", "m/vh.tiff"] rfl (by decide) rfl "m/vv.tiff"
    (List.mem_cons_self "m/vv.tiff" ["m/vh.tiff"])
  exact h

/-- C5: the projection extension fields of the created item are exactly
epsg 4326, the product bbox, the annotation shape, the bbox transform and
the rounded centroid of the item geometry; given the key disciplines of
the fills (`sar:`, `sat:`, `processing:` prefixes) and of the metadata
dictionary (`s1:` prefix), no other `proj:` property exists on the item,
so no geocoding output beyond the bounding-box transform is produced. -/
theorem projection_fields (inp : Inputs) (it : Item) (g : Geometry) (b : List ℚ)
    (shape : List Nat) (md sarP satP procP : List (String × JVal))
    (hg : inp.geometry = some g) (hb : inp.bbox = some b)
    (hshape : inp.shape = some shape) (hmdeq : inp.metadata_dict = some md)
    (hsarP : inp.sar_props = Except.ok sarP)
    (hsatP : inp.sat_props = Except.ok satP)
    (hprocP : inp.proc_props = Except.ok procP)
    (hmd : ∀ kv ∈ md, kv.1.data.take 3 = ['s', '1', ':'])
    (hsar : ∀ kv ∈ sarP, kv.1.data.take 4 = ['s', 'a', 'r', ':'])
    (hsat : ∀ kv ∈ satP, kv.1.data.take 4 = ['s', 'a', 't', ':'])
    (hproc : ∀ kv ∈ procP,
      kv.1.data.take 11 = ['p', 'r', 'o', 'c', 'e', 's', 's', 'i', 'n', 'g', ':'])
    (hok : createItem inp = Except.ok it) :
    getKey it.properties "proj:epsg" = some (JVal.i 4326) ∧
    getKey it.properties "proj:bbox" = some (JVal.qarr b) ∧
    getKey it.properties "proj:shape" = some (JVal.narr shape) ∧
    getKey it.properties "proj:transform"
      = some (JVal.qarr (transform_from_bbox b shape)) ∧
    getKey it.properties "proj:centroid"
      = some (JVal.cen (round5 (inp.centroid g).2) (round5 (inp.centroid g).1)) ∧
    (∀ k : String, (getKey it.properties k).isSome = true →
      k.data.take 5 = ['p', 'r', 'o', 'j', ':'] →
      k ∈ ["proj:epsg", "proj:bbox", "proj:shape", "proj:transform", "proj:centroid"]) := by
  obtain ⟨sid, g', b', dt', sarP', satP', procP', shape', md',
    h1, h2, h3, h4, h5, h6, h7, h8, h9, hid, hg', hb', hdt', hp⟩ := createItem_core hok
  rw [Option.some.inj (h2.symm.trans hg), Option.some.inj (h3.symm.trans hb),
    Option.some.inj (h8.symm.trans hshape), Option.some.inj (h9.symm.trans hmdeq),
    Except.ok.inj (h5.symm.trans hsarP), Except.ok.inj (h6.symm.trans hsatP),
    Except.ok.inj (h7.symm.trans hprocP)] at hp
  have hmdne : ∀ c : String, c.data.take 3 ≠ ['s', '1', ':'] →
      ∀ kv ∈ md, kv.1 ≠ c :=
    fun c hc kv hm => ne_of_take_eq_of_take_ne (hmd kv hm) hc
  refine ⟨?_, ?_, ?_, ?_, ?_, ?_⟩
  · rw [hp, getKey_preProps_to_proj _ _ _ _ _ _ _ _ _ _ _
      (hmdne _ (by decide)) (by decide) (by decide) (by decide) (by decide) (by decide),
      getKey_setKey_ne _ _ (by decide), getKey_setKey_ne _ _ (by decide),
      getKey_setKey_ne _ _ (by decide), getKey_setKey_ne _ _ (by decide),
      getKey_setKey_self]
  · rw [hp, getKey_preProps_to_proj _ _ _ _ _ _ _ _ _ _ _
      (hmdne _ (by decide)) (by decide) (by decide) (by decide) (by decide) (by decide),
      getKey_setKey_ne _ _ (by decide), getKey_setKey_ne _ _ (by decide),
      getKey_setKey_ne _ _ (by decide), getKey_setKey_self]
  · rw [hp, getKey_preProps_to_proj _ _ _ _ _ _ _ _ _ _ _
      (hmdne _ (by decide)) (by decide) (by decide) (by decide) (by decide) (by decide),
      getKey_setKey_ne _ _ (by decide), getKey_setKey_ne _ _ (by decide),
      getKey_setKey_self]
  · rw [hp, getKey_preProps_to_proj _ _ _ _ _ _ _ _ _ _ _
      (hmdne _ (by decide)) (by decide) (by decide) (by decide) (by decide) (by decide),
      getKey_setKey_ne _ _ (by decide), getKey_setKey_self]
  · rw [hp, getKey_preProps_to_proj _ _ _ _ _ _ _ _ _ _ _
      (hmdne _ (by decide)) (by decide) (by decide) (by decide) (by decide) (by decide),
      getKey_setKey_self]
  · intro k hk hk5
    rw [hp] at hk
    have hmemk := getKey_isSome_mem _ _ hk
    have h4 : k.data.take 4 = ['p', 'r', 'o', 'j'] := by
      have h' := take_of_take hk5 (by decide : 4 ≤ 5)
      rw [h']
      decide
    have h3' : k.data.take 3 = ['p', 'r', 'o'] := by
      have h' := take_of_take hk5 (by decide : 3 ≤ 5)
      rw [h']
      decide
    rcases mem_keys_preProps _ _ _ _ _ _ _ _ _ _ _ hmemk with hm | hm | hm | hm | hm
    · obtain ⟨kv, hkv, hfst⟩ := List.mem_map.mp hm
      have := hsar kv hkv
      rw [hfst, h4] at this
      exact absurd this (by decide)
    · obtain ⟨kv, hkv, hfst⟩ := List.mem_map.mp hm
      have := hsat kv hkv
      rw [hfst, h4] at this
      exact absurd this (by decide)
    · obtain ⟨kv, hkv, hfst⟩ := List.mem_map.mp hm
      have h11 := hproc kv hkv
      have h5' : kv.1.data.take 5
          = ['p', 'r', 'o', 'c', 'e'] := by
        have h' := take_of_take h11 (by decide : 5 ≤ 11)
        rw [h']
        decide
      rw [hfst, hk5] at h5'
      exact absurd h5' (by decide)
    · obtain ⟨kv, hkv, hfst⟩ := List.mem_map.mp hm
      have := hmd kv hkv
      rw [hfst, h3'] at this
      exact absurd this (by decide)
    · simp only [List.mem_cons, List.not_mem_nil, or_false] at hm
      rcases hm with rfl | rfl | rfl | rfl | rfl | rfl | rfl | rfl | rfl | rfl
      · simp
      · simp
      · simp
      · simp
      · simp
      · exact absurd hk5 (by decide)
      · exact absurd hk5 (by decide)
      · exact absurd hk5 (by decide)
      · exact absurd hk5 (by decide)
      · exact absurd hk5 (by decide)

/-- Witness for C5 at the concrete sample product. -/
theorem projection_fields_witness :
    sampleInputs.bbox = some [1, 2, 3, 4] ∧
    sampleInputs.shape = some [2, 3] ∧
    createItem sampleInputs = Except.ok sampleItem ∧
    (getKey sampleItem.properties "proj:epsg" = some (JVal.i 4326) ∧
     getKey sampleItem.properties "proj:bbox" = some (JVal.qarr [1, 2, 3, 4]) ∧
     getKey sampleItem.properties "proj:shape" = some (JVal.narr [2, 3]) ∧
     getKey sampleItem.properties "proj:transform"
       = some (JVal.qarr (transform_from_bbox [1, 2, 3, 4] [2, 3])) ∧
     getKey sampleItem.properties "proj:centroid"
       = some (JVal.cen
           (round5 (sampleInputs.centroid [(1, 2), (3, 2), (3, 4), (1, 4), (1, 2)]).2)
           (round5 (sampleInputs.centroid [(1, 2), (3, 2), (3, 4), (1, 4), (1, 2)]).1))) := by
  refine ⟨rfl, rfl, rfl, ?_⟩
  have h := projection_fields sampleInputs sampleItem
    [(1, 2), (3, 2), (3, 4), (1, 4), (1, 2)] [1, 2, 3, 4] [2, 3]
    [("s1:orbit_source", JVal.s "DOWNLINK")]
    [("sar:instrument_mode", JVal.s "IW")]
    [("sat:orbit_state", JVal.s "ascending")]
    [("processing:software", JVal.s "ipf")]
    rfl rfl rfl rfl rfl rfl rfl
    (by decide) (by decide) (by decide) (by decide) rfl
  exact ⟨h.1, h.2.1, h.2.2.1, h.2.2.2.1, h.2.2.2.2.1⟩

/-- C7: on the created item the SAR and satellite extension properties
filled from the manifest are all present, every entry of the metadata
dictionary is present, `s1:product_identifier` is the full scene id, the
platform is the lower-cased manifest platform or unset when the manifest
platform is absent, and the constellation is the fixed Sentinel
constellation constant.  The hypotheses record the key disciplines of the
spec-modelled fills (pystac writes `sar:`/`sat:`/`processing:` prefixed
keys; the metadata dictionary holds `s1:` scene properties and does not
bind the two keys `create_item` writes itself). -/
theorem manifest_properties_on_item (inp : Inputs) (it : Item) (sid : String)
    (md sarP satP procP : List (String × JVal))
    (hsid : inp.scene_id = some sid) (hmdeq : inp.metadata_dict = some md)
    (hsarP : inp.sar_props = Except.ok sarP)
    (hsatP : inp.sat_props = Except.ok satP)
    (hprocP : inp.proc_props = Except.ok procP)
    (hsar : ∀ kv ∈ sarP, kv.1.data.take 4 = ['s', 'a', 'r', ':'])
    (hsarnd : (sarP.map Prod.fst).Nodup)
    (hsat : ∀ kv ∈ satP, kv.1.data.take 4 = ['s', 'a', 't', ':'])
    (hsatnd : (satP.map Prod.fst).Nodup)
    (hproc : ∀ kv ∈ procP,
      kv.1.data.take 11 = ['p', 'r', 'o', 'c', 'e', 's', 's', 'i', 'n', 'g', ':'])
    (hmd : ∀ kv ∈ md, kv.1.data.take 3 = ['s', '1', ':'])
    (hmdnd : (md.map Prod.fst).Nodup)
    (hmd1 : "s1:product_identifier" ∉ md.map Prod.fst)
    (hmd2 : "s1:processing_datetime" ∉ md.map Prod.fst)
    (hok : createItem inp = Except.ok it) :
    (∀ kv ∈ sarP, getKey it.properties kv.1 = some kv.2) ∧
    (∀ kv ∈ satP, getKey it.properties kv.1 = some kv.2) ∧
    (∀ kv ∈ md, getKey it.properties kv.1 = some kv.2) ∧
    getKey it.properties "s1:product_identifier" = some (JVal.s sid) ∧
    (∀ pf : String, inp.platform = some pf →
      getKey it.properties "platform" = some (JVal.s (strLower pf))) ∧
    (inp.platform = none → getKey it.properties "platform" = none) ∧
    getKey it.properties "constellation" = some (JVal.s SENTINEL_CONSTELLATION) := by
  obtain ⟨sid', g', b', dt', sarP', satP', procP', shape', md',
    h1, h2, h3, h4, h5, h6, h7, h8, h9, hid, hg', hb', hdt', hp⟩ := createItem_core hok
  rw [Option.some.inj (h1.symm.trans hsid), Option.some.inj (h9.symm.trans hmdeq),
    Except.ok.inj (h5.symm.trans hsarP), Except.ok.inj (h6.symm.trans hsatP),
    Except.ok.inj (h7.symm.trans hprocP)] at hp
  have hmdne : ∀ c : String, c.data.take 3 ≠ ['s', '1', ':'] →
      ∀ kv ∈ md, kv.1 ≠ c :=
    fun c hc kv hm => ne_of_take_eq_of_take_ne (hmd kv hm) hc
  have hprocne : ∀ c : String, c.data.take 4 ≠ ['p', 'r', 'o', 'c'] →
      ∀ kv ∈ procP, kv.1 ≠ c := by
    intro c hc kv hm
    have h4 : kv.1.data.take 4 = ['p', 'r', 'o', 'c'] := by
      rw [take_of_take (hproc kv hm) (by decide : 4 ≤ 11)]
      decide
    exact ne_of_take_eq_of_take_ne h4 hc
  have hsatne : ∀ c : String, c.data.take 4 ≠ ['s', 'a', 't', ':'] →
      ∀ kv ∈ satP, kv.1 ≠ c :=
    fun c hc kv hm => ne_of_take_eq_of_take_ne (hsat kv hm) hc
  have hsarne : ∀ c : String, c.data.take 4 ≠ ['s', 'a', 'r', ':'] →
      ∀ kv ∈ sarP, kv.1 ≠ c :=
    fun c hc kv hm => ne_of_take_eq_of_take_ne (hsar kv hm) hc
  refine ⟨?_, ?_, ?_, ?_, ?_, ?_, ?_⟩
  · -- SAR fill entries
    intro kv hmem
    have hk4 : kv.1.data.take 4 = ['s', 'a', 'r', ':'] := hsar kv hmem
    have hkne : ∀ c : String, c.data.take 4 ≠ ['s', 'a', 'r', ':'] → kv.1 ≠ c :=
      fun c hc => ne_of_take_eq_of_take_ne hk4 hc
    have hk3 : kv.1.data.take 3 = ['s', 'a', 'r'] := by
      rw [take_of_take hk4 (by decide : 3 ≤ 4)]
      decide
    rw [hp, getKey_preProps_to_proj _ _ _ _ _ _ _ _ _ _ _
        (fun kv' hm' => ne_of_take_eq_of_take_ne (hmd kv' hm') (by rw [hk3]; decide))
        (hkne _ (by decide)) (hkne _ (by decide)) (hkne _ (by decide))
        (hkne _ (by decide)) (hkne _ (by decide)),
      getKey_setKey_ne _ _ (hkne _ (by decide)),
      getKey_setKey_ne _ _ (hkne _ (by decide)),
      getKey_setKey_ne _ _ (hkne _ (by decide)),
      getKey_setKey_ne _ _ (hkne _ (by decide)),
      getKey_setKey_ne _ _ (hkne _ (by decide)),
      getKey_updKVs_not_mem procP _ _
        (fun kv' hm' => hprocne kv.1 (by rw [hk4]; decide) kv' hm'),
      getKey_updKVs_not_mem satP _ _
        (fun kv' hm' => hsatne kv.1 (by rw [hk4]; decide) kv' hm'),
      getKey_updKVs_mem sarP _ kv hsarnd hmem]
  · -- satellite fill entries
    intro kv hmem
    have hk4 : kv.1.data.take 4 = ['s', 'a', 't', ':'] := hsat kv hmem
    have hkne : ∀ c : String, c.data.take 4 ≠ ['s', 'a', 't', ':'] → kv.1 ≠ c :=
      fun c hc => ne_of_take_eq_of_take_ne hk4 hc
    have hk3 : kv.1.data.take 3 = ['s', 'a', 't'] := by
      rw [take_of_take hk4 (by decide : 3 ≤ 4)]
      decide
    rw [hp, getKey_preProps_to_proj _ _ _ _ _ _ _ _ _ _ _
        (fun kv' hm' => ne_of_take_eq_of_take_ne (hmd kv' hm') (by rw [hk3]; decide))
        (hkne _ (by decide)) (hkne _ (by decide)) (hkne _ (by decide))
        (hkne _ (by decide)) (hkne _ (by decide)),
      getKey_setKey_ne _ _ (hkne _ (by decide)),
      getKey_setKey_ne _ _ (hkne _ (by decide)),
      getKey_setKey_ne _ _ (hkne _ (by decide)),
      getKey_setKey_ne _ _ (hkne _ (by decide)),
      getKey_setKey_ne _ _ (hkne _ (by decide)),
      getKey_updKVs_not_mem procP _ _
        (fun kv' hm' => hprocne kv.1 (by rw [hk4]; decide) kv' hm'),
      getKey_updKVs_mem satP _ kv hsatnd hmem]
  · -- metadata dictionary entries
    intro kv hmem
    have hne1 : kv.1 ≠ "s1:processing_datetime" :=
      fun he => hmd2 (he ▸ List.mem_map_of_mem Prod.fst hmem)
    have hne2 : kv.1 ≠ "s1:product_identifier" :=
      fun he => hmd1 (he ▸ List.mem_map_of_mem Prod.fst hmem)
    rw [hp]
    exact getKey_preProps_md_mem _ _ _ _ _ _ _ _ _ _ kv hmdnd hmem hne1 hne2
  · rw [hp]
    exact getKey_preProps_pid _ _ _ _ _ _ _ _ _ _
  · intro pf hpf
    rw [hp, hpf]
    exact getKey_preProps_platform_some _ _ _ _ _ _ _ _ _ _
      (hmdne _ (by decide))
  · intro hpf
    rw [hp, hpf]
    exact getKey_preProps_platform_none _ _ _ _ _ _ _ _ _
      (hmdne _ (by decide))
      (hsarne _ (by decide)) (hsatne _ (by decide)) (hprocne _ (by decide))
  · rw [hp]
    exact getKey_preProps_constellation _ _ _ _ _ _ _ _ _ _
      (hmdne _ (by decide))

/-- Witness for C7 at the concrete sample product. -/
theorem manifest_properties_on_item_witness :
    createItem sampleInputs = Except.ok sampleItem ∧
    (getKey sampleItem.properties "sar:instrument_mode" = some (JVal.s "IW") ∧
     getKey sampleItem.properties "sat:orbit_state" = some (JVal.s "ascending") ∧
     getKey sampleItem.properties "s1:orbit_source" = some (JVal.s "DOWNLINK") ∧
     getKey sampleItem.properties "s1:product_identifier"
       = some (JVal.s "SCENE_AB123") ∧
     getKey sampleItem.properties "platform" = some (JVal.s (strLower "SENTINEL-1A")) ∧
     getKey sampleItem.properties "constellation"
       = some (JVal.s SENTINEL_CONSTELLATION)) := by
  refine ⟨rfl, ?_⟩
  have h := manifest_properties_on_item sampleInputs sampleItem "SCENE_AB123"
    [("s1:orbit_source", JVal.s "DOWNLINK")]
    [("sar:instrument_mode", JVal.s "IW")]
    [("sat:orbit_state", JVal.s "ascending")]
    [("processing:software", JVal.s "ipf")]
    rfl rfl rfl rfl rfl
    (by decide) (by decide) (by decide) (by decide) (by decide) (by decide)
    (by decide) (by decide) (by decide) rfl
  refine ⟨?_, ?_, ?_, h.2.2.2.1, h.2.2.2.2.1 "SENTINEL-1A" rfl, h.2.2.2.2.2.2⟩
  · exact h.1 ("sar:instrument_mode", JVal.s "IW") (List.mem_cons_self _ _)
  · exact h.2.1 ("sat:orbit_state", JVal.s "ascending") (List.mem_cons_self _ _)
  · exact h.2.2.1 ("s1:orbit_source", JVal.s "DOWNLINK") (List.mem_cons_self _ _)

/-- C10: when the `(swath, polarisation)` pairs extracted from the image
asset hrefs are pairwise distinct, the `assert key not in item.assets` of
the image loop never fails and `create_item` succeeds; when they are not,
`create_item` aborts on the assertion instead of silently overwriting an
asset.  The domain hypotheses record the spec-modelled shape of the data:
swaths and polarisations are dash-free tokens (IW1..3/EW1..5/WV1..2 and
hh/hv/vh/vv), the polarisation is never the word `manifest`, and the band
suffixes of the annotation, calibration and noise assets are dash-free,
so a computed `swath-polarisation` key can never collide with the
`safe-manifest`, `schema-*` or `thumbnail` keys. -/
theorem imageAsset_assertion_safety (inp : Inputs) (sid : String) (g : Geometry)
    (b : List ℚ) (dt : String) (sarP satP procP : List (String × JVal))
    (shape : List Nat) (md : List (String × JVal)) (paths : List String)
    (h1 : inp.scene_id = some sid) (h2 : inp.geometry = some g)
    (h3 : inp.bbox = some b) (h4 : inp.get_datetime = some dt)
    (h5 : inp.sar_props = Except.ok sarP) (h6 : inp.sat_props = Except.ok satP)
    (h7 : inp.proc_props = Except.ok procP) (h8 : inp.shape = some shape)
    (h9 : inp.metadata_dict = some md) (h10 : inp.image_paths = some paths)
    (hprod : ∀ pa ∈ inp.product_assets, ('-' : Char) ∉ pa.1.data)
    (hcal : ∀ pa ∈ inp.calibration_assets, ('-' : Char) ∉ pa.1.data)
    (hnoise : ∀ pa ∈ inp.noise_assets, ('-' : Char) ∉ pa.1.data)
    (himg : ∀ a ∈ imageVals inp paths,
      ('-' : Char) ∉ (inp.extract_props a.href).2.data ∧
      ('-' : Char) ∉ (inp.extract_props a.href).1.data ∧
      (inp.extract_props a.href).1 ≠ "manifest") :
    (((imageVals inp paths).map (fun a => inp.extract_props a.href)).Nodup →
      okB (createItem inp) = true) ∧
    (¬ ((imageVals inp paths).map (fun a => inp.extract_props a.href)).Nodup →
      okB (createItem inp) = false) := by
  rw [createItem_okB_eq inp sid g b dt sarP satP procP shape md paths
    h1 h2 h3 h4 h5 h6 h7 h8 h9 h10]
  have hkeys_eq : (imageVals inp paths).map (keyOfAsset inp)
      = ((imageVals inp paths).map (fun a => inp.extract_props a.href)).map
          (fun pr => pr.2 ++ "-" ++ pr.1) := by
    rw [List.map_map]
    rfl
  constructor
  · intro hnd
    have hkeysnd : ((imageVals inp paths).map (keyOfAsset inp)).Nodup := by
      rw [hkeys_eq]
      refine List.Nodup.map_on ?_ hnd
      intro x hx y hy hxy
      obtain ⟨ax, hax, rfl⟩ := List.mem_map.mp hx
      obtain ⟨ay, hay, rfl⟩ := List.mem_map.mp hy
      obtain ⟨hswe, hple⟩ :=
        dashed_key_inj (himg ax hax).2.1 (himg ay hay).2.1 hxy
      exact Prod.ext_iff.mpr ⟨hple, hswe⟩
    have hfreshp : ∀ a ∈ imageVals inp paths,
        keyOfAsset inp a ∉ (preAssets inp).map Prod.fst := by
      intro a ha hmem
      obtain ⟨hsw, hpol, hpolm⟩ := himg a ha
      rcases mem_keys_preAssets inp _ hmem with hk | hk | ⟨q, hq, hk⟩ | ⟨q, hq, hk⟩ | ⟨q, hq, hk⟩
      · simp only [keyOfAsset] at hk
        rw [show ("safe-manifest" : String) = "safe" ++ "-" ++ "manifest" by decide] at hk
        obtain ⟨_, hpe⟩ := dashed_key_inj hpol (by decide) hk
        exact hpolm hpe
      · have hdash := dash_mem_key (inp.extract_props a.href).2 (inp.extract_props a.href).1
        simp only [keyOfAsset] at hk
        rw [hk] at hdash
        exact absurd hdash (by decide)
      · obtain ⟨pa, hpa, hq1⟩ := List.mem_map.mp hq
        have hqd : ('-' : Char) ∉ q.data := hq1 ▸ hprod pa hpa
        simp only [keyOfAsset] at hk
        rw [show ("schema-product-" : String) ++ q = "schema-product" ++ "-" ++ q from rfl] at hk
        obtain ⟨hse, _⟩ := dashed_key_inj hpol hqd hk
        rw [hse] at hsw
        exact hsw (by decide)
      · obtain ⟨pa, hpa, hq1⟩ := List.mem_map.mp hq
        have hqd : ('-' : Char) ∉ q.data := hq1 ▸ hcal pa hpa
        simp only [keyOfAsset] at hk
        rw [show ("schema-calibration-" : String) ++ q = "schema-calibration" ++ "-" ++ q from rfl] at hk
        obtain ⟨hse, _⟩ := dashed_key_inj hpol hqd hk
        rw [hse] at hsw
        exact hsw (by decide)
      · obtain ⟨pa, hpa, hq1⟩ := List.mem_map.mp hq
        have hqd : ('-' : Char) ∉ q.data := hq1 ▸ hnoise pa hpa
        simp only [keyOfAsset] at hk
        rw [show ("schema-noise-" : String) ++ q = "schema-noise" ++ "-" ++ q from rfl] at hk
        obtain ⟨hse, _⟩ := dashed_key_inj hpol hqd hk
        rw [hse] at hsw
        exact hsw (by decide)
    exact freshChain_of_fresh inp (imageVals inp paths) _ hfreshp hkeysnd
  · intro hnnd
    refine freshChain_false_of_dup inp (imageVals inp paths) _ ?_
    intro hnd'
    rw [hkeys_eq] at hnd'
    exact hnnd (List.Nodup.of_map _ hnd')

/-- Witness for C10 at the concrete sample product. -/
theorem imageAsset_assertion_safety_witness :
    okB (createItem sampleInputs) = true :=
  (imageAsset_assertion_safety sampleInputs "SCENE_AB123"
      [(1, 2), (3, 2), (3, 4), (1, 4), (1, 2)] [1, 2, 3, 4] "2020-01-01T00:00:12Z"
      [("sar:instrument_mode", JVal.s "IW")] [("sat:orbit_state", JVal.s "ascending")]
      [("processing:software", JVal.s "ipf")] [2, 3]
      [("s1:orbit_source", JVal.s "DOWNLINK")] ["m/vv.tiff", "m/vh.tiff"]
      rfl rfl rfl rfl rfl rfl rfl rfl rfl rfl
      (by decide) (by decide) (by decide) (by decide)).1 (by decide)

end S1SLC
